import Mathlib

/-!
Settings screen (`selfdrive/ui/qt/offroad/settings.cc`)

A shallow embedding of the settings screen's callbacks over the persistent
key-value store, and the properties of the option pickers, the toggles panel
and the device panel.
-/

namespace Settings

/-! ## The persistent key-value store (`common/params.h`) -/

/-- Modelled from the spec: the key-value persistence API of `common/params.h`,
which is not part of the reviewed source. The store is a flat map from opaque
string keys to string values; a key is either absent or holds a text. -/
abbrev Params := String → Option String

namespace Params

/-- The store in which no key is present. -/
def empty : Params := fun _ => none

/-- Modelled from the spec: `Params::get` returns the stored text, and the
empty text for an absent key. -/
def get (p : Params) (key : String) : String := (p key).getD ""

/-- Modelled from the spec: `Params::put` stores a text under one key. -/
def put (p : Params) (key value : String) : Params :=
  fun k => if k = key then some value else p k

/-- Modelled from the spec: `Params::remove` deletes one key. -/
def remove (p : Params) (key : String) : Params :=
  fun k => if k = key then none else p k

/-- Modelled from the spec: `Params::getBool`, a flag is true when its text is
`"1"`. -/
def getBool (p : Params) (key : String) : Bool := decide (p.get key = "1")

/-- Modelled from the spec: `Params::putBool` stores `"1"` or `"0"`. -/
def putBool (p : Params) (key : String) (value : Bool) : Params :=
  p.put key (if value then "1" else "0")

end Params

/-! ## `int` and the `QString` conversions used by the pickers -/

/-- Smallest value of the 32-bit `int`. -/
def INT_MIN : Int := -2147483648

/-- Largest value of the 32-bit `int`. -/
def INT_MAX : Int := 2147483647

/-- Result of 32-bit `int` arithmetic: the mathematical result reduced to the
two's-complement range. (C++ leaves signed overflow undefined; the embedding
takes the wrapped result of the machine instruction. Inside the `int` range
`wrapInt` is the identity.) -/
def wrapInt (x : Int) : Int := (x + 2147483648) % 4294967296 - 2147483648

namespace QString

/-- `QChar::isSpace`: the white space that `QString::toInt` skips around a
number (the ASCII blanks, U+0085, U+00A0 and the Unicode separators). -/
def isSpace (c : Char) : Bool :=
  c.toNat = 32 || (9 ≤ c.toNat && c.toNat ≤ 13) || c.toNat = 133 || c.toNat = 160
    || c.toNat = 5760 || (8192 ≤ c.toNat && c.toNat ≤ 8202) || c.toNat = 8232
    || c.toNat = 8233 || c.toNat = 8239 || c.toNat = 8287 || c.toNat = 12288

/-- Value of a run of ASCII digits read after the accumulator `acc`; `none`
when a character is not a digit. -/
def digitsFrom (acc : Nat) : List Char → Option Nat
  | [] => some acc
  | c :: cs =>
    if 48 ≤ c.toNat ∧ c.toNat ≤ 57 then digitsFrom (10 * acc + (c.toNat - 48)) cs
    else none

/-- A non-empty run of ASCII digits as a natural number. -/
def digits : List Char → Option Nat
  | [] => none
  | c :: cs => digitsFrom 0 (c :: cs)

/-- Drops the white space at the end of a text. -/
def dropTrailingSpace (cs : List Char) : List Char :=
  (cs.reverse.dropWhile isSpace).reverse

/-- An optionally signed decimal number surrounded by optional white space;
the sign is `+`, `-` or the minus sign U+2212. -/
def parseDecimal (s : String) : Option Int :=
  match dropTrailingSpace (s.data.dropWhile isSpace) with
  | [] => none
  | c :: ds =>
    if c.toNat = 45 ∨ c.toNat = 8722 then (digits ds).map fun n => -(n : Int)
    else if c.toNat = 43 then (digits ds).map fun n => (n : Int)
    else (digits (c :: ds)).map fun n => (n : Int)

/-- `QString::toInt()`: the text converted to an `int` in base 10, and 0 when
the conversion fails (no number, or a number outside the `int` range). -/
def toInt (s : String) : Int :=
  match parseDecimal s with
  | some v => if INT_MIN ≤ v ∧ v ≤ INT_MAX then v else 0
  | none => 0

/-- Decimal digits of a natural number, least significant first; `fuel` bounds
the number of digits. -/
def revDigits : Nat → Nat → List Char
  | 0, _ => []
  | fuel + 1, n =>
    Char.ofNat (48 + n % 10) :: (if n / 10 = 0 then [] else revDigits fuel (n / 10))

/-- Decimal text of a natural number. -/
def natText (n : Nat) : String := String.mk (revDigits (n + 1) n).reverse

/-- `QString::number(int)`: the decimal text of an `int`. -/
def number (n : Int) : String :=
  match n with
  | Int.ofNat m => natText m
  | Int.negSucc m => "-" ++ natText (m + 1)

end QString

/-! ## The option pickers -/

/-- Widget state of an option picker together with the store it reads and
writes: the text of its label and of its two buttons. -/
structure Picker where
  params : Params
  label : String
  btnminus : String
  btnplus : String

namespace LateralControlSelect

/-- `LateralControlSelect::refresh`: shows the name of the stored option; a
stored text other than "0".."3" leaves the label as it was. -/
def refresh (w : Picker) : Picker :=
  let latcontrol := w.params.get "LateralControlSelect"
  let label :=
    if latcontrol = "0" then "Pid"
    else if latcontrol = "1" then "Indi"
    else if latcontrol = "2" then "Lqr"
    else if latcontrol = "3" then "Torque"
    else w.label
  { w with label := label, btnminus := "◀", btnplus := "▶" }

/-- The `released` handler of the decrement button. -/
def btnminus_released (w : Picker) : Picker :=
  let str := w.params.get "LateralControlSelect"
  let latcontrol := QString.toInt str
  let latcontrol := wrapInt (latcontrol - 1)
  let latcontrol := if latcontrol ≤ 0 then 0 else latcontrol
  let latcontrols := QString.number latcontrol
  refresh { w with params := w.params.put "LateralControlSelect" latcontrols }

/-- The `released` handler of the increment button. -/
def btnplus_released (w : Picker) : Picker :=
  let str := w.params.get "LateralControlSelect"
  let latcontrol := QString.toInt str
  let latcontrol := wrapInt (latcontrol + 1)
  let latcontrol := if latcontrol ≥ 3 then 3 else latcontrol
  let latcontrols := QString.number latcontrol
  refresh { w with params := w.params.put "LateralControlSelect" latcontrols }

/-- The constructor: an empty label and empty buttons, then `refresh`. -/
def new (p : Params) : Picker :=
  refresh { params := p, label := "", btnminus := "", btnplus := "" }

end LateralControlSelect

namespace MfcSelect

/-- `MfcSelect::refresh`: shows the name of the stored option; a stored text
other than "0".."2" leaves the label as it was. -/
def refresh (w : Picker) : Picker :=
  let mfc := w.params.get "MfcSelect"
  let label :=
    if mfc = "0" then "Auto"
    else if mfc = "1" then "Ldws,Lkas"
    else if mfc = "2" then "Lfa"
    else w.label
  { w with label := label, btnminus := "◀", btnplus := "▶" }

/-- The `released` handler of the decrement button. -/
def btnminus_released (w : Picker) : Picker :=
  let str := w.params.get "MfcSelect"
  let mfc := QString.toInt str
  let mfc := wrapInt (mfc - 1)
  let mfc := if mfc ≤ 0 then 0 else mfc
  let mfcs := QString.number mfc
  refresh { w with params := w.params.put "MfcSelect" mfcs }

/-- The `released` handler of the increment button. -/
def btnplus_released (w : Picker) : Picker :=
  let str := w.params.get "MfcSelect"
  let mfc := QString.toInt str
  let mfc := wrapInt (mfc + 1)
  let mfc := if mfc ≥ 2 then 2 else mfc
  let mfcs := QString.number mfc
  refresh { w with params := w.params.put "MfcSelect" mfcs }

/-- The constructor: an empty label and empty buttons, then `refresh`. -/
def new (p : Params) : Picker :=
  refresh { params := p, label := "", btnminus := "", btnplus := "" }

end MfcSelect

namespace AebSelect

/-- `AebSelect::refresh`: shows the name of the stored option; a stored text
other than "0" and "1" leaves the label as it was. -/
def refresh (w : Picker) : Picker :=
  let aeb := w.params.get "AebSelect"
  let label :=
    if aeb = "0" then "Scc12"
    else if aeb = "1" then "Fca11"
    else w.label
  { w with label := label, btnminus := "◀", btnplus := "▶" }

/-- The `released` handler of the decrement button. -/
def btnminus_released (w : Picker) : Picker :=
  let str := w.params.get "AebSelect"
  let aeb := QString.toInt str
  let aeb := wrapInt (aeb - 1)
  let aeb := if aeb ≤ 0 then 0 else aeb
  let aebs := QString.number aeb
  refresh { w with params := w.params.put "AebSelect" aebs }

/-- The `released` handler of the increment button. -/
def btnplus_released (w : Picker) : Picker :=
  let str := w.params.get "AebSelect"
  let aeb := QString.toInt str
  let aeb := wrapInt (aeb + 1)
  let aeb := if aeb ≥ 1 then 1 else aeb
  let aebs := QString.number aeb
  refresh { w with params := w.params.put "AebSelect" aebs }

/-- The constructor: an empty label and empty buttons, then `refresh`. -/
def new (p : Params) : Picker :=
  refresh { params := p, label := "", btnminus := "", btnplus := "" }

end AebSelect

/-- A press of one of the two buttons of a picker. -/
inductive Press where
  | minus
  | plus
deriving DecidableEq, Repr

/-- One press on the lateral-control picker. -/
def LateralControlSelect.press (w : Picker) : Press → Picker
  | .minus => LateralControlSelect.btnminus_released w
  | .plus => LateralControlSelect.btnplus_released w

/-- One press on the camera picker. -/
def MfcSelect.press (w : Picker) : Press → Picker
  | .minus => MfcSelect.btnminus_released w
  | .plus => MfcSelect.btnplus_released w

/-- One press on the collision-avoidance picker. -/
def AebSelect.press (w : Picker) : Press → Picker
  | .minus => AebSelect.btnminus_released w
  | .plus => AebSelect.btnplus_released w

/-- Splits a text at every `/`; `acc` holds the current piece, reversed. -/
def splitSlash : List Char → List Char → List String
  | acc, [] => [String.mk acc.reverse]
  | acc, c :: cs =>
    if c = '/' then String.mk acc.reverse :: splitSlash [] cs else splitSlash (c :: acc) cs

/-- The option names listed between the parentheses of a picker's title,
in the order of the title (the names are separated by `/`). -/
def titleOptions (title : String) : List String :=
  splitSlash [] (((title.data.dropWhile fun c => c ≠ '(').drop 1).takeWhile fun c => c ≠ ')')

/-- The title of the lateral-control picker. -/
def LateralControlSelect.title : String := "LateralControl Select (Pid/Indi/Lqr/Torque)"

/-- The title of the camera picker. -/
def MfcSelect.title : String := "MFC Camera Select (Auto/Ldws,Lkas/Lfa)"

/-- The title of the collision-avoidance picker. -/
def AebSelect.title : String := "AEB Signal Select (Scc12/Fca11)"

/-- The texts a picker with highest option index `M` stores for its options:
the decimal texts of 0..M. -/
def optionTexts (M : Nat) : List String :=
  (List.range (M + 1)).map fun n => QString.number (n : Int)

/-- The name of the option whose index is stored as the text `stored`, for a
picker with the given title: the title lists the names in the order of the
indices 0, 1, 2, ...; `none` when the text is not one of these indices. -/
def optionName (title : String) (stored : String) : Option String :=
  ((optionTexts ((titleOptions title).length - 1)).zip (titleOptions title)).lookup stored

/-- The stored text names an option of a picker with highest option index `M`:
it is the decimal text of an integer in 0..M. -/
def IsOption (M : Nat) (s : String) : Prop :=
  ∃ n : Int, 0 ≤ n ∧ n ≤ (M : Int) ∧ s = QString.number n

/-! ## The toggles panel -/

/-- The exception `kj::Exception` raised when a serialized record cannot be
decoded. -/
inductive KjException where
  | parse
deriving DecidableEq, Repr

/-- The two capability flags of the `cereal::CarParams` record that the
toggles panel reads. -/
structure CarParams where
  experimentalLongitudinalAvailable : Bool
  openpilotLongitudinalControl : Bool
deriving DecidableEq, Repr

/-- Modelled from the spec: the toggle widget `ParamControl` of
`selfdrive/ui/qt/widgets/controls.h`, which is not part of the reviewed source:
the parameter it edits, its texts, whether it is enabled and visible, and the
position of its switch. -/
structure ParamControl where
  key : String
  title : String
  description : String
  icon : String
  enabled : Bool
  visible : Bool
  toggleOn : Bool
deriving DecidableEq, Repr

namespace ParamControl

/-- Modelled from the spec: the constructor `ParamControl(param, title, desc,
icon, parent)`; a new widget is enabled and visible and its switch shows the
stored flag. -/
def new (params : Params) (param title desc icon : String) : ParamControl :=
  { key := param, title := title, description := desc, icon := icon,
    enabled := true, visible := true, toggleOn := params.getBool param }

/-- `QWidget::setEnabled`. -/
def setEnabled (t : ParamControl) (b : Bool) : ParamControl := { t with enabled := b }

/-- `QWidget::setVisible`. -/
def setVisible (t : ParamControl) (b : Bool) : ParamControl := { t with visible := b }

/-- `AbstractControl::setDescription`. -/
def setDescription (t : ParamControl) (d : String) : ParamControl := { t with description := d }

/-- Modelled from the spec: `ParamControl::refresh` moves the switch to the
stored flag. -/
def refresh (t : ParamControl) (params : Params) : ParamControl :=
  { t with toggleOn := params.getBool t.key }

end ParamControl

/-- The toggles panel: the store it works on and its map `toggles` from
parameter name to widget. As with `std::map::operator[]`, every key has an
entry; `nullControl` stands for a key that was never inserted. -/
structure TogglesPanel where
  params : Params
  toggles : String → ParamControl

/-- The entry of a key that was never inserted into `toggles`. -/
def nullControl : ParamControl :=
  { key := "", title := "", description := "", icon := "",
    enabled := false, visible := false, toggleOn := false }

namespace TogglesPanel

/-- Applies a widget method to the toggle stored under `key`. -/
def onToggle (w : TogglesPanel) (key : String) (f : ParamControl → ParamControl) : TogglesPanel :=
  { w with toggles := fun k => if k = key then f (w.toggles k) else w.toggles k }

/-- The rows `param, title, desc, icon` of `toggle_defs`; `tr` is the
translation function and `enableMaps` the build flag `ENABLE_MAPS`. -/
def toggle_defs (tr : String → String) (enableMaps : Bool) :
    List (String × String × String × String) :=
  [ ("OpenpilotEnabledToggle", tr "Enable openpilot",
      tr "Use the openpilot system for adaptive cruise control and lane keep driver assistance. Your attention is required at all times to use this feature. Changing this setting takes effect when the car is powered off.",
      "../assets/offroad/icon_openpilot.png"),
    ("IsMetric", tr "Use Metric System", tr "Display speed in km/h instead of mph.",
      "../assets/offroad/icon_metric.png"),
    ("IsLdwEnabled", tr "Enable Lane Departure Warnings",
      tr "Receive alerts to steer back into the lane when your vehicle drifts over a detected lane line without a turn signal activated while driving over 31 mph (50 km/h).",
      "../assets/offroad/icon_ldws.png"),
    ("AutoLaneChangeEnabled", tr "Enable AutoLaneChange",
      tr "Operation of the turn signal at 60㎞/h speed will result in a short change of the vehicle",
      "../assets/offroad/icon_lca.png"),
    ("RecordFront", tr "Record and Upload Driver Camera",
      tr "Upload data from the driver facing camera and help improve the driver monitoring algorithm.",
      "../assets/offroad/icon_monitoring.png"),
    ("DisengageOnAccelerator", tr "Disengage On Accelerator Pedal",
      tr "When enabled, pressing the accelerator pedal will disengage openpilot.",
      "../assets/offroad/icon_disengage_on_accelerator.svg"),
    ("EndToEndLong", tr "🌮 End-to-end longitudinal (extremely alpha) 🌮", "",
      "../assets/offroad/icon_road.png"),
    ("ExperimentalLongitudinalEnabled", tr "Experimental openpilot longitudinal control",
      tr "<b>WARNING: openpilot longitudinal control is experimental for this car and will disable AEB.</b>",
      "../assets/offroad/icon_speed_limit.png") ] ++
  (if enableMaps then
    [ ("NavSettingTime24h", tr "Show ETA in 24h Format", tr "Use 24h format instead of am/pm",
        "../assets/offroad/icon_metric.png"),
      ("NavSettingLeftSide", tr "Show Map on Left Side of UI",
        tr "Show map on left side when in split screen view.",
        "../assets/offroad/icon_road.png") ]
  else [])

/-- The constructor `TogglesPanel::TogglesPanel`: one widget per row of
`toggle_defs`, disabled when the flag `<param>Lock` is set. -/
def new (tr : String → String) (enableMaps : Bool) (params : Params) : TogglesPanel :=
  (toggle_defs tr enableMaps).foldl
    (fun w row =>
      match row with
      | (param, title, desc, icon) =>
        let toggle := ParamControl.new w.params param title desc icon
        let locked := w.params.getBool (param ++ "Lock")
        let toggle := toggle.setEnabled (!locked)
        { w with toggles := fun k => if k = param then toggle else w.toggles k })
    { params := params, toggles := fun _ => nullControl }

/-- The text `e2e_description`. -/
def e2e_description (tr : String → String) : String :=
  tr "Let the driving model control the gas and brakes. openpilot will drive as it thinks a human would. Super experimental."

/-- The text `no_long`. -/
def no_long : String := "openpilot longitudinal control is not currently available for this car."

/-- The text `exp_long`. -/
def exp_long : String := "Enable experimental longitudinal control to enable this."

/-- The statements of `TogglesPanel::updateToggles` that run once the
non-empty 'CarParamsPersistent' record has been decoded to `CP`. -/
def updateWithCarParams (tr : String → String) (CP : CarParams) (w : TogglesPanel) :
    TogglesPanel :=
  let w :=
    if !CP.experimentalLongitudinalAvailable then
      { w with params := w.params.remove "ExperimentalLongitudinalEnabled" }
    else w
  let w := w.onToggle "ExperimentalLongitudinalEnabled"
    fun t => t.setVisible CP.experimentalLongitudinalAvailable
  let op_long := CP.openpilotLongitudinalControl && !CP.experimentalLongitudinalAvailable
  let exp_long_enabled :=
    CP.experimentalLongitudinalAvailable && w.params.getBool "ExperimentalLongitudinalEnabled"
  let w :=
    if op_long || exp_long_enabled then
      let w := w.onToggle "EndToEndLong" fun t => t.setEnabled true
      w.onToggle "EndToEndLong" fun t => t.setDescription (e2e_description tr)
    else
      let w := w.onToggle "EndToEndLong" fun t => t.setEnabled false
      let w := { w with params := w.params.remove "EndToEndLong" }
      w.onToggle "EndToEndLong" fun t => t.setDescription
        ("<b>" ++ (if CP.experimentalLongitudinalAvailable then exp_long else no_long)
          ++ "</b><br><br>" ++ e2e_description tr)
  w.onToggle "EndToEndLong" fun t => t.refresh w.params

/-- `TogglesPanel::updateToggles`. `decode` reads the `cereal::CarParams`
record out of the stored bytes and may raise `kj::Exception`, which
`updateToggles` does not catch. -/
def updateToggles (tr : String → String) (decode : String → Except KjException CarParams)
    (w : TogglesPanel) : Except KjException TogglesPanel :=
  let cp_bytes := w.params.get "CarParamsPersistent"
  if cp_bytes ≠ "" then
    match decode cp_bytes with
    | .error e => .error e
    | .ok CP => .ok (updateWithCarParams tr CP w)
  else
    let w := w.onToggle "EndToEndLong" fun t => t.setDescription (e2e_description tr)
    .ok (w.onToggle "ExperimentalLongitudinalEnabled" fun t => t.setVisible false)

/-- `TogglesPanel::showEvent`. -/
def showEvent (tr : String → String) (decode : String → Except KjException CarParams)
    (w : TogglesPanel) : Except KjException TogglesPanel :=
  updateToggles tr decode w

end TogglesPanel

/-! ## The device panel -/

/-- The part of a decoded `LiveCalibration` record that
`updateCalibDescription` uses: the calibration status, and the sentence
" Your device is pointed …" that is built from the pitch and yaw angles (the
angles are floating-point numbers and are kept as this text). -/
structure LiveCalibration where
  calStatus : Int
  pointed : String
deriving DecidableEq, Repr

/-- What the user and the rest of the system do while `reboot` or `poweroff`
runs: whether the system is engaged when the button is clicked, the answer to
the confirmation dialog, and whether the system is engaged once the dialog
has closed. -/
structure DialogEnv where
  engaged : Bool
  confirm : Bool
  engagedAfter : Bool
deriving DecidableEq, Repr

namespace DevicePanel

/-- The default text of the calibration description. -/
def calibDefault (tr : String → String) : String :=
  tr "openpilot requires the device to be mounted within 4° left or right and within 5° up or 8° down. openpilot is continuously calibrating, resetting is rarely required."

/-- `DevicePanel::updateCalibDescription`: the result is the description set
on the button. `decode` stands for reading the record inside the `try` block
and may raise `kj::Exception`, which the `catch` clause swallows. -/
def updateCalibDescription (tr : String → String)
    (decode : String → Except KjException LiveCalibration) (params : Params) :
    Except KjException String :=
  let desc := calibDefault tr
  let calib_bytes := params.get "CalibrationParams"
  let desc :=
    if calib_bytes ≠ "" then
      match decode calib_bytes with
      | .ok calib => if calib.calStatus ≠ 0 then desc ++ calib.pointed else desc
      | .error _ => desc
    else desc
  .ok desc

/-- `DevicePanel::reboot`. -/
def reboot (env : DialogEnv) (params : Params) : Params :=
  if !env.engaged then
    if env.confirm then
      if !env.engagedAfter then params.putBool "DoReboot" true else params
    else params
  else params

/-- `DevicePanel::poweroff`. -/
def poweroff (env : DialogEnv) (params : Params) : Params :=
  if !env.engaged then
    if env.confirm then
      if !env.engagedAfter then params.putBool "DoShutdown" true else params
    else params
  else params

end DevicePanel

/-- What a click handler leaves behind: the store after the handler, the
signals it emitted, and the single-shot timers it started, each with its delay
in milliseconds and the action that runs on the store when it fires. -/
structure Released where
  params : Params
  emitted : List String
  timers : List (Nat × (Params → Params))

/-- Runs the pending single-shot timers of a handler on the store `p`, in the
order in which they were started. -/
def Released.fire (r : Released) (p : Params) : Params :=
  r.timers.foldl (fun q t => t.2 q) p

/-- The `released` handler of the 'Reset Calibration, LiveParameters' button of
`DevicePanel::DevicePanel`; `confirm` is the user's answer to the confirmation
dialog. -/
def DevicePanel.reset_calib_btn_released (confirm : Bool) (params : Params) : Released :=
  if confirm then
    let params := params.remove "CalibrationParams"
    let params := params.remove "LiveParameters"
    { params := params, emitted := ["closeSettings"],
      timers := [(1000, fun p => p.putBool "SoftRestartTriggered" true)] }
  else
    { params := params, emitted := [], timers := [] }

/-! ## The vehicle-model selector -/

/-- `get_list`: the lines of the file at `path`, and the empty list when the
file cannot be opened (`file = none`). -/
def get_list (file : Option (List String)) : List String :=
  match file with
  | some lines => lines
  | none => []

/-- The list widget of the vehicle-model selector: its rows and the row that
is highlighted. -/
structure SelectCar where
  rows : List String
  currentRow : Nat

namespace SelectCar

/-- The `for` loop of `SelectCar::SelectCar` over the remaining items:
`index` counts the items already passed and `row` is the current row; the
first item equal to `selected` sets the row to `index + 1` and ends the loop. -/
def selectLoop (selected : String) : List String → Nat → Nat → Nat
  | [], _, row => row
  | item :: rest, index, row =>
    if selected = item then index + 1 else selectLoop selected rest (index + 1) row

/-- The constructor `SelectCar::SelectCar`: the row 'Select car not use'
followed by the supported cars, with row 0 current unless the stored
'SelectedCar' is one of the cars. -/
def new (tr : String → String) (file : Option (List String)) (params : Params) : SelectCar :=
  let items := get_list file
  let selected := params.get "SelectedCar"
  { rows := tr "Select car not use" :: items, currentRow := selectLoop selected items 0 0 }

end SelectCar

/-! ## Lemmas on the store and on `int` -/

theorem Params.get_put_same (p : Params) (k v : String) : (p.put k v).get k = v := by
  simp [Params.get, Params.put]

theorem Params.put_other (p : Params) (k v k' : String) (h : k' ≠ k) : (p.put k v) k' = p k' := by
  simp [Params.put, h]

theorem Params.remove_other (p : Params) (k k' : String) (h : k' ≠ k) : (p.remove k) k' = p k' := by
  simp [Params.remove, h]

theorem Params.remove_same (p : Params) (k : String) : (p.remove k) k = none := by
  simp [Params.remove]

theorem Params.get_absent (p : Params) (k : String) (h : p k = none) : p.get k = "" := by
  simp [Params.get, h]

theorem QString.toInt_range (s : String) : INT_MIN ≤ toInt s ∧ toInt s ≤ INT_MAX := by
  unfold toInt
  cases parseDecimal s with
  | none => simp [INT_MIN, INT_MAX]
  | some v =>
    by_cases h : INT_MIN ≤ v ∧ v ≤ INT_MAX
    · simp only [h, and_self, if_true]
    · simp only [h, if_false]
      decide

theorem QString.toInt_empty : toInt "" = 0 := by decide

theorem wrapInt_of_range (x : Int) (h₁ : INT_MIN ≤ x) (h₂ : x ≤ INT_MAX) : wrapInt x = x := by
  unfold wrapInt
  unfold INT_MIN at h₁
  unfold INT_MAX at h₂
  omega

theorem isOption_three (s : String) : IsOption 3 s ↔ s ∈ ["0", "1", "2", "3"] := by
  constructor
  · rintro ⟨n, h0, h3, rfl⟩
    have h3' : n ≤ 3 := by exact_mod_cast h3
    interval_cases n <;> decide
  · intro h
    simp only [List.mem_cons, List.mem_singleton, List.not_mem_nil, or_false] at h
    rcases h with rfl | rfl | rfl | rfl
    · exact ⟨0, by decide, by decide, by decide⟩
    · exact ⟨1, by decide, by decide, by decide⟩
    · exact ⟨2, by decide, by decide, by decide⟩
    · exact ⟨3, by decide, by decide, by decide⟩

theorem isOption_two (s : String) : IsOption 2 s ↔ s ∈ ["0", "1", "2"] := by
  constructor
  · rintro ⟨n, h0, h3, rfl⟩
    have h3' : n ≤ 2 := by exact_mod_cast h3
    interval_cases n <;> decide
  · intro h
    simp only [List.mem_cons, List.mem_singleton, List.not_mem_nil, or_false] at h
    rcases h with rfl | rfl | rfl
    · exact ⟨0, by decide, by decide, by decide⟩
    · exact ⟨1, by decide, by decide, by decide⟩
    · exact ⟨2, by decide, by decide, by decide⟩

theorem isOption_one (s : String) : IsOption 1 s ↔ s ∈ ["0", "1"] := by
  constructor
  · rintro ⟨n, h0, h3, rfl⟩
    have h3' : n ≤ 1 := by exact_mod_cast h3
    interval_cases n <;> decide
  · intro h
    simp only [List.mem_cons, List.mem_singleton, List.not_mem_nil, or_false] at h
    rcases h with rfl | rfl
    · exact ⟨0, by decide, by decide, by decide⟩
    · exact ⟨1, by decide, by decide, by decide⟩

/-- The value a decrement press computes from the parsed value `n`. -/
theorem minus_value (n : Int) (h₁ : INT_MIN < n) (h₂ : n ≤ INT_MAX) :
    (if wrapInt (n - 1) ≤ 0 then 0 else wrapInt (n - 1)) = max (n - 1) 0 := by
  have hw : wrapInt (n - 1) = n - 1 := by
    apply wrapInt_of_range <;> (unfold INT_MIN INT_MAX at *; omega)
  rw [hw]
  by_cases h : n - 1 ≤ 0
  · simp [h]
  · simp [h]; omega

/-- The value an increment press computes from the parsed value `n`. -/
theorem plus_value (M n : Int) (h₁ : INT_MIN ≤ n) (h₂ : n < INT_MAX) :
    (if wrapInt (n + 1) ≥ M then M else wrapInt (n + 1)) = min (n + 1) M := by
  have hw : wrapInt (n + 1) = n + 1 := by
    apply wrapInt_of_range <;> (unfold INT_MIN INT_MAX at *; omega)
  rw [hw]
  by_cases h : n + 1 ≥ M
  · simp [h]
  · simp [h]; omega

theorem LateralControlSelect.lat_minus_params (w : Picker) :
    (btnminus_released w).params = w.params.put "LateralControlSelect"
      (QString.number
        (if wrapInt (QString.toInt (w.params.get "LateralControlSelect") - 1) ≤ 0 then 0
         else wrapInt (QString.toInt (w.params.get "LateralControlSelect") - 1))) := rfl

theorem LateralControlSelect.lat_plus_params (w : Picker) :
    (btnplus_released w).params = w.params.put "LateralControlSelect"
      (QString.number
        (if wrapInt (QString.toInt (w.params.get "LateralControlSelect") + 1) ≥ 3 then 3
         else wrapInt (QString.toInt (w.params.get "LateralControlSelect") + 1))) := rfl

theorem MfcSelect.mfc_minus_params (w : Picker) :
    (btnminus_released w).params = w.params.put "MfcSelect"
      (QString.number
        (if wrapInt (QString.toInt (w.params.get "MfcSelect") - 1) ≤ 0 then 0
         else wrapInt (QString.toInt (w.params.get "MfcSelect") - 1))) := rfl

theorem MfcSelect.mfc_plus_params (w : Picker) :
    (btnplus_released w).params = w.params.put "MfcSelect"
      (QString.number
        (if wrapInt (QString.toInt (w.params.get "MfcSelect") + 1) ≥ 2 then 2
         else wrapInt (QString.toInt (w.params.get "MfcSelect") + 1))) := rfl

theorem AebSelect.aeb_minus_params (w : Picker) :
    (btnminus_released w).params = w.params.put "AebSelect"
      (QString.number
        (if wrapInt (QString.toInt (w.params.get "AebSelect") - 1) ≤ 0 then 0
         else wrapInt (QString.toInt (w.params.get "AebSelect") - 1))) := rfl

theorem AebSelect.aeb_plus_params (w : Picker) :
    (btnplus_released w).params = w.params.put "AebSelect"
      (QString.number
        (if wrapInt (QString.toInt (w.params.get "AebSelect") + 1) ≥ 1 then 1
         else wrapInt (QString.toInt (w.params.get "AebSelect") + 1))) := rfl

/-- The text stored by a decrement press of the lateral-control picker. -/
theorem LateralControlSelect.lat_minus_stored (w : Picker)
    (h : INT_MIN < QString.toInt (w.params.get "LateralControlSelect")) :
    (btnminus_released w).params.get "LateralControlSelect" =
      QString.number (max (QString.toInt (w.params.get "LateralControlSelect") - 1) 0) := by
  rw [lat_minus_params, Params.get_put_same, minus_value _ h (QString.toInt_range _).2]

/-- The text stored by an increment press of the lateral-control picker. -/
theorem LateralControlSelect.lat_plus_stored (w : Picker)
    (h : QString.toInt (w.params.get "LateralControlSelect") < INT_MAX) :
    (btnplus_released w).params.get "LateralControlSelect" =
      QString.number (min (QString.toInt (w.params.get "LateralControlSelect") + 1) 3) := by
  rw [lat_plus_params, Params.get_put_same, plus_value 3 _ (QString.toInt_range _).1 h]

/-- The text stored by a decrement press of the camera picker. -/
theorem MfcSelect.mfc_minus_stored (w : Picker)
    (h : INT_MIN < QString.toInt (w.params.get "MfcSelect")) :
    (btnminus_released w).params.get "MfcSelect" =
      QString.number (max (QString.toInt (w.params.get "MfcSelect") - 1) 0) := by
  rw [mfc_minus_params, Params.get_put_same, minus_value _ h (QString.toInt_range _).2]

/-- The text stored by an increment press of the camera picker. -/
theorem MfcSelect.mfc_plus_stored (w : Picker)
    (h : QString.toInt (w.params.get "MfcSelect") < INT_MAX) :
    (btnplus_released w).params.get "MfcSelect" =
      QString.number (min (QString.toInt (w.params.get "MfcSelect") + 1) 2) := by
  rw [mfc_plus_params, Params.get_put_same, plus_value 2 _ (QString.toInt_range _).1 h]

/-- The text stored by a decrement press of the collision-avoidance picker. -/
theorem AebSelect.aeb_minus_stored (w : Picker)
    (h : INT_MIN < QString.toInt (w.params.get "AebSelect")) :
    (btnminus_released w).params.get "AebSelect" =
      QString.number (max (QString.toInt (w.params.get "AebSelect") - 1) 0) := by
  rw [aeb_minus_params, Params.get_put_same, minus_value _ h (QString.toInt_range _).2]

/-- The text stored by an increment press of the collision-avoidance picker. -/
theorem AebSelect.aeb_plus_stored (w : Picker)
    (h : QString.toInt (w.params.get "AebSelect") < INT_MAX) :
    (btnplus_released w).params.get "AebSelect" =
      QString.number (min (QString.toInt (w.params.get "AebSelect") + 1) 1) := by
  rw [aeb_plus_params, Params.get_put_same, plus_value 1 _ (QString.toInt_range _).1 h]

/-! ## C1: range of the value stored by one press -/

/-- C1 (as stated, refuted): one press does not always store an option of
{0,1,2,3}. With "10" stored, the decrement button stores "9"; with "-5"
stored, the increment button stores "-4". -/
theorem lateralControl_press_leaves_range :
    ((LateralControlSelect.btnminus_released
        (LateralControlSelect.new (Params.empty.put "LateralControlSelect" "10"))).params.get
          "LateralControlSelect" = "9"
      ∧ ¬ IsOption 3 ((LateralControlSelect.btnminus_released
        (LateralControlSelect.new (Params.empty.put "LateralControlSelect" "10"))).params.get
          "LateralControlSelect"))
    ∧ ((LateralControlSelect.btnplus_released
        (LateralControlSelect.new (Params.empty.put "LateralControlSelect" "-5"))).params.get
          "LateralControlSelect" = "-4"
      ∧ ¬ IsOption 3 ((LateralControlSelect.btnplus_released
        (LateralControlSelect.new (Params.empty.put "LateralControlSelect" "-5"))).params.get
          "LateralControlSelect")) := by
  refine ⟨⟨by decide, ?_⟩, ⟨by decide, ?_⟩⟩
  · rw [isOption_three]; decide
  · rw [isOption_three]; decide

/-- C1 (amended): with `n` the `int` read from the prior content of
'LateralControlSelect' (0 when the key is absent or holds no number), a
decrement press stores the decimal text of an integer in {0,1,2,3} whenever
`INT_MIN < n ≤ 4`, and an increment press does so whenever `-1 ≤ n < INT_MAX`;
both do so when the key is absent and when the content is not a number. A
prior value above 4 stays above 3 after a decrement (the text of `n - 1` is
stored), and a prior value below -1 stays negative after an increment (the
text of `n + 1` is stored). -/
theorem lateralControl_press_in_range (w : Picker) :
    (INT_MIN < QString.toInt (w.params.get "LateralControlSelect") →
      QString.toInt (w.params.get "LateralControlSelect") ≤ 4 →
      IsOption 3 ((LateralControlSelect.btnminus_released w).params.get "LateralControlSelect"))
    ∧ (-1 ≤ QString.toInt (w.params.get "LateralControlSelect") →
      QString.toInt (w.params.get "LateralControlSelect") < INT_MAX →
      IsOption 3 ((LateralControlSelect.btnplus_released w).params.get "LateralControlSelect"))
    ∧ (w.params "LateralControlSelect" = none ∨
        QString.parseDecimal (w.params.get "LateralControlSelect") = none →
      IsOption 3 ((LateralControlSelect.btnminus_released w).params.get "LateralControlSelect")
      ∧ IsOption 3 ((LateralControlSelect.btnplus_released w).params.get "LateralControlSelect"))
    ∧ (4 < QString.toInt (w.params.get "LateralControlSelect") →
      (LateralControlSelect.btnminus_released w).params.get "LateralControlSelect" =
          QString.number (QString.toInt (w.params.get "LateralControlSelect") - 1)
      ∧ 3 < QString.toInt (w.params.get "LateralControlSelect") - 1)
    ∧ (QString.toInt (w.params.get "LateralControlSelect") < -1 →
      (LateralControlSelect.btnplus_released w).params.get "LateralControlSelect" =
          QString.number (QString.toInt (w.params.get "LateralControlSelect") + 1)
      ∧ QString.toInt (w.params.get "LateralControlSelect") + 1 < 0) := by
  have hminus : INT_MIN < QString.toInt (w.params.get "LateralControlSelect") →
      QString.toInt (w.params.get "LateralControlSelect") ≤ 4 →
      IsOption 3 ((LateralControlSelect.btnminus_released w).params.get
        "LateralControlSelect") := by
    intro h₁ h₂
    rw [LateralControlSelect.lat_minus_stored w h₁]
    exact ⟨_, le_max_right _ _, by simp only [Nat.cast_ofNat]; omega, rfl⟩
  have hplus : -1 ≤ QString.toInt (w.params.get "LateralControlSelect") →
      QString.toInt (w.params.get "LateralControlSelect") < INT_MAX →
      IsOption 3 ((LateralControlSelect.btnplus_released w).params.get
        "LateralControlSelect") := by
    intro h₁ h₂
    rw [LateralControlSelect.lat_plus_stored w h₂]
    exact ⟨_, by omega, by simp only [Nat.cast_ofNat]; omega, rfl⟩
  refine ⟨hminus, hplus, ?_, ?_, ?_⟩
  · intro h
    have h0 : QString.toInt (w.params.get "LateralControlSelect") = 0 := by
      rcases h with h | h
      · rw [Params.get_absent _ _ h]; exact QString.toInt_empty
      · simp [QString.toInt, h]
    exact ⟨hminus (by rw [h0]; decide) (by rw [h0]; decide),
      hplus (by rw [h0]; decide) (by rw [h0]; decide)⟩
  · intro h
    refine ⟨?_, by omega⟩
    rw [LateralControlSelect.lat_minus_stored w (by unfold INT_MIN; omega),
      max_eq_left (by omega)]
  · intro h
    refine ⟨?_, by omega⟩
    rw [LateralControlSelect.lat_plus_stored w (by unfold INT_MAX; omega),
      min_eq_left (by omega)]

/-- C1 (amended), at the store that holds "4": both presses store "3"; at the
empty store an increment stores an option; at the store that holds "10" a
decrement stores the text of 9; at the store that holds "-5" an increment
stores the text of -4. -/
theorem lateralControl_press_in_range_witness :
    IsOption 3 ((LateralControlSelect.btnminus_released
        (LateralControlSelect.new (Params.empty.put "LateralControlSelect" "4"))).params.get
          "LateralControlSelect")
    ∧ IsOption 3 ((LateralControlSelect.btnplus_released
        (LateralControlSelect.new (Params.empty.put "LateralControlSelect" "4"))).params.get
          "LateralControlSelect")
    ∧ IsOption 3 ((LateralControlSelect.btnplus_released
        (LateralControlSelect.new Params.empty)).params.get "LateralControlSelect")
    ∧ ((LateralControlSelect.btnminus_released
        (LateralControlSelect.new (Params.empty.put "LateralControlSelect" "10"))).params.get
          "LateralControlSelect" =
        QString.number (QString.toInt ((LateralControlSelect.new
          (Params.empty.put "LateralControlSelect" "10")).params.get "LateralControlSelect") - 1)
      ∧ 3 < QString.toInt ((LateralControlSelect.new
          (Params.empty.put "LateralControlSelect" "10")).params.get "LateralControlSelect") - 1)
    ∧ ((LateralControlSelect.btnplus_released
        (LateralControlSelect.new (Params.empty.put "LateralControlSelect" "-5"))).params.get
          "LateralControlSelect" =
        QString.number (QString.toInt ((LateralControlSelect.new
          (Params.empty.put "LateralControlSelect" "-5")).params.get "LateralControlSelect") + 1)
      ∧ QString.toInt ((LateralControlSelect.new
          (Params.empty.put "LateralControlSelect" "-5")).params.get "LateralControlSelect") + 1
        < 0) :=
  ⟨(lateralControl_press_in_range
      (LateralControlSelect.new (Params.empty.put "LateralControlSelect" "4"))).1
      (by decide) (by decide),
   (lateralControl_press_in_range
      (LateralControlSelect.new (Params.empty.put "LateralControlSelect" "4"))).2.1
      (by decide) (by decide),
   ((lateralControl_press_in_range (LateralControlSelect.new Params.empty)).2.2.1
      (Or.inl rfl)).2,
   (lateralControl_press_in_range
      (LateralControlSelect.new (Params.empty.put "LateralControlSelect" "10"))).2.2.2.1
      (by decide),
   (lateralControl_press_in_range
      (LateralControlSelect.new (Params.empty.put "LateralControlSelect" "-5"))).2.2.2.2
      (by decide)⟩

/-! ## C2: visibility of the experimental-longitudinal toggle -/

theorem TogglesPanel.updateToggles_empty_eq (tr : String → String)
    (decode : String → Except KjException CarParams) (w : TogglesPanel)
    (h : w.params.get "CarParamsPersistent" = "") :
    updateToggles tr decode w =
      .ok ((w.onToggle "EndToEndLong" fun t => t.setDescription (e2e_description tr)).onToggle
        "ExperimentalLongitudinalEnabled" fun t => t.setVisible false) := by
  simp only [updateToggles, h, ne_eq, not_true_eq_false, if_false]

theorem TogglesPanel.updateToggles_decoded_eq (tr : String → String)
    (decode : String → Except KjException CarParams) (w : TogglesPanel) (CP : CarParams)
    (h : w.params.get "CarParamsPersistent" ≠ "")
    (hd : decode (w.params.get "CarParamsPersistent") = .ok CP) :
    updateToggles tr decode w = .ok (updateWithCarParams tr CP w) := by
  simp only [updateToggles, h, ne_eq, not_false_eq_true, if_true, hd]

theorem TogglesPanel.updateToggles_raise (tr : String → String)
    (decode : String → Except KjException CarParams) (w : TogglesPanel) (e : KjException)
    (h : w.params.get "CarParamsPersistent" ≠ "")
    (hd : decode (w.params.get "CarParamsPersistent") = .error e) :
    updateToggles tr decode w = .error e := by
  simp only [updateToggles, h, ne_eq, not_false_eq_true, if_true, hd]

/-- The store after the decoded branch of `updateToggles`. -/
theorem TogglesPanel.updateWithCarParams_params (tr : String → String) (CP : CarParams)
    (w : TogglesPanel) :
    (updateWithCarParams tr CP w).params =
      (if (CP.openpilotLongitudinalControl && !CP.experimentalLongitudinalAvailable
          || CP.experimentalLongitudinalAvailable &&
            w.params.getBool "ExperimentalLongitudinalEnabled") = true then
        (if CP.experimentalLongitudinalAvailable = true then w.params
          else w.params.remove "ExperimentalLongitudinalEnabled")
      else
        (if CP.experimentalLongitudinalAvailable = true then w.params
          else w.params.remove "ExperimentalLongitudinalEnabled").remove "EndToEndLong") := by
  rcases CP with ⟨a, b⟩
  cases a <;> cases b <;>
    cases hb : w.params.getBool "ExperimentalLongitudinalEnabled" <;>
    simp [updateWithCarParams, onToggle, hb]

/-- The experimental-longitudinal toggle after the decoded branch of
`updateToggles`. -/
theorem TogglesPanel.updateWithCarParams_op_long (tr : String → String) (CP : CarParams)
    (w : TogglesPanel) :
    (updateWithCarParams tr CP w).toggles "ExperimentalLongitudinalEnabled" =
      (w.toggles "ExperimentalLongitudinalEnabled").setVisible
        CP.experimentalLongitudinalAvailable := by
  rcases CP with ⟨a, b⟩
  cases a <;> cases b <;>
    cases hb : w.params.getBool "ExperimentalLongitudinalEnabled" <;>
    simp [updateWithCarParams, onToggle, hb]

/-- The end-to-end toggle after the decoded branch of `updateToggles`. -/
theorem TogglesPanel.updateWithCarParams_e2e (tr : String → String) (CP : CarParams)
    (w : TogglesPanel) :
    (updateWithCarParams tr CP w).toggles "EndToEndLong" =
      (if (CP.openpilotLongitudinalControl && !CP.experimentalLongitudinalAvailable
          || CP.experimentalLongitudinalAvailable &&
            w.params.getBool "ExperimentalLongitudinalEnabled") = true then
        (((w.toggles "EndToEndLong").setEnabled true).setDescription
          (e2e_description tr)).refresh (updateWithCarParams tr CP w).params
      else
        (((w.toggles "EndToEndLong").setEnabled false).setDescription
          ("<b>" ++ (if CP.experimentalLongitudinalAvailable = true then exp_long else no_long)
            ++ "</b><br><br>" ++ e2e_description tr)).refresh
              (updateWithCarParams tr CP w).params) := by
  rw [updateWithCarParams_params]
  rcases CP with ⟨a, b⟩
  cases a <;> cases b <;>
    cases hb : w.params.getBool "ExperimentalLongitudinalEnabled" <;>
    simp [updateWithCarParams, onToggle, hb]

/-- The other toggles are not touched by the decoded branch of
`updateToggles`. -/
theorem TogglesPanel.updateWithCarParams_other (tr : String → String) (CP : CarParams)
    (w : TogglesPanel) (k : String) (h₁ : k ≠ "EndToEndLong")
    (h₂ : k ≠ "ExperimentalLongitudinalEnabled") :
    (updateWithCarParams tr CP w).toggles k = w.toggles k := by
  rcases CP with ⟨a, b⟩
  cases a <;> cases b <;>
    cases hb : w.params.getBool "ExperimentalLongitudinalEnabled" <;>
    simp [updateWithCarParams, onToggle, hb, h₁, h₂]

/-- C2: after `updateToggles` the 'ExperimentalLongitudinalEnabled' toggle is
hidden when 'CarParamsPersistent' is empty or absent, and when the record is
non-empty (and decodes to `CP`) it is visible exactly when
`CP.experimentalLongitudinalAvailable` is true; in both cases `updateToggles`
returns. -/
theorem experimentalToggle_visible_iff (tr : String → String)
    (decode : String → Except KjException CarParams) (w : TogglesPanel) :
    (w.params.get "CarParamsPersistent" = "" →
      ∃ w', TogglesPanel.updateToggles tr decode w = .ok w' ∧
        (w'.toggles "ExperimentalLongitudinalEnabled").visible = false)
    ∧ (∀ CP, w.params.get "CarParamsPersistent" ≠ "" →
        decode (w.params.get "CarParamsPersistent") = .ok CP →
        ∃ w', TogglesPanel.updateToggles tr decode w = .ok w' ∧
          ((w'.toggles "ExperimentalLongitudinalEnabled").visible = true ↔
            CP.experimentalLongitudinalAvailable = true)) := by
  constructor
  · intro h
    refine ⟨_, TogglesPanel.updateToggles_empty_eq tr decode w h, ?_⟩
    simp [TogglesPanel.onToggle, ParamControl.setVisible]
  · intro CP h hd
    refine ⟨_, TogglesPanel.updateToggles_decoded_eq tr decode w CP h hd, ?_⟩
    rw [TogglesPanel.updateWithCarParams_op_long]
    simp [ParamControl.setVisible]

/-- C2, at a panel whose non-empty record has the capability flag set: the
toggle is visible. -/
theorem experimentalToggle_visible_iff_witness :
    ∃ w', TogglesPanel.updateToggles id (fun _ => .ok ⟨true, false⟩)
        (TogglesPanel.new id false (Params.empty.put "CarParamsPersistent" "x")) = .ok w' ∧
      ((w'.toggles "ExperimentalLongitudinalEnabled").visible = true ↔ true = true) :=
  (experimentalToggle_visible_iff id (fun _ => .ok ⟨true, false⟩)
    (TogglesPanel.new id false (Params.empty.put "CarParamsPersistent" "x"))).2
    ⟨true, false⟩ (by decide) rfl

/-! ## C3: the calibration description falls back to the default text -/

/-- C3: when 'CalibrationParams' is absent or empty, or its decoding raises
`kj::Exception`, `updateCalibDescription` returns normally (the exception does
not propagate) and the description it sets is exactly the default
mounting-tolerance text. -/
theorem updateCalibDescription_default (tr : String → String)
    (decode : String → Except KjException LiveCalibration) (params : Params)
    (h : params "CalibrationParams" = none ∨ params.get "CalibrationParams" = "" ∨
      ∃ e, decode (params.get "CalibrationParams") = .error e) :
    DevicePanel.updateCalibDescription tr decode params =
      .ok (tr "openpilot requires the device to be mounted within 4° left or right and within 5° up or 8° down. openpilot is continuously calibrating, resetting is rarely required.") := by
  unfold DevicePanel.updateCalibDescription DevicePanel.calibDefault
  rcases h with h | h | ⟨e, h⟩
  · simp [Params.get_absent _ _ h]
  · simp [h]
  · simp only [h]
    split <;> rfl

/-- C3, at a store whose 'CalibrationParams' record does not decode. -/
theorem updateCalibDescription_default_witness :
    DevicePanel.updateCalibDescription id (fun _ => .error .parse)
        (Params.empty.put "CalibrationParams" "garbage") =
      .ok "openpilot requires the device to be mounted within 4° left or right and within 5° up or 8° down. openpilot is continuously calibrating, resetting is rarely required." :=
  updateCalibDescription_default id (fun _ => .error .parse)
    (Params.empty.put "CalibrationParams" "garbage") (Or.inr (Or.inr ⟨.parse, rfl⟩))

/-! ## C4: the pickers saturate at their first and last option -/

/-- C4 (as stated, refuted): the lateral-control picker does not wrap around.
With "3" stored, the increment button stores "3", not "0"; with "0" stored,
the decrement button stores "0", not "3". -/
theorem lateralControl_not_cyclic :
    ((LateralControlSelect.btnplus_released
        (LateralControlSelect.new (Params.empty.put "LateralControlSelect" "3"))).params.get
          "LateralControlSelect" = "3"
      ∧ (LateralControlSelect.btnplus_released
        (LateralControlSelect.new (Params.empty.put "LateralControlSelect" "3"))).params.get
          "LateralControlSelect" ≠ "0")
    ∧ ((LateralControlSelect.btnminus_released
        (LateralControlSelect.new (Params.empty.put "LateralControlSelect" "0"))).params.get
          "LateralControlSelect" = "0"
      ∧ (LateralControlSelect.btnminus_released
        (LateralControlSelect.new (Params.empty.put "LateralControlSelect" "0"))).params.get
          "LateralControlSelect" ≠ "3") := by
  decide

/-- C4 (amended): the lateral-control picker saturates. When the stored option
is the last one (3, 'Torque'), the increment button stores 3 again and the
label shows 'Torque'; when the stored option is the first one (0, 'Pid'), the
decrement button stores 0 again and the label shows 'Pid'. -/
theorem lateralControl_saturates (w : Picker) :
    (QString.toInt (w.params.get "LateralControlSelect") = 3 →
      (LateralControlSelect.btnplus_released w).params.get "LateralControlSelect" = "3"
      ∧ (LateralControlSelect.btnplus_released w).label = "Torque")
    ∧ (QString.toInt (w.params.get "LateralControlSelect") = 0 →
      (LateralControlSelect.btnminus_released w).params.get "LateralControlSelect" = "0"
      ∧ (LateralControlSelect.btnminus_released w).label = "Pid") := by
  constructor
  · intro h
    have hs : (LateralControlSelect.btnplus_released w).params.get "LateralControlSelect"
        = "3" := by
      rw [LateralControlSelect.lat_plus_stored w (by rw [h]; decide), h]; decide
    refine ⟨hs, ?_⟩
    have hl : (LateralControlSelect.btnplus_released w).label =
        (if (LateralControlSelect.btnplus_released w).params.get "LateralControlSelect" = "0"
          then "Pid"
        else if (LateralControlSelect.btnplus_released w).params.get "LateralControlSelect" = "1"
          then "Indi"
        else if (LateralControlSelect.btnplus_released w).params.get "LateralControlSelect" = "2"
          then "Lqr"
        else if (LateralControlSelect.btnplus_released w).params.get "LateralControlSelect" = "3"
          then "Torque"
        else w.label) := rfl
    rw [hl, hs]; rfl
  · intro h
    have hs : (LateralControlSelect.btnminus_released w).params.get "LateralControlSelect"
        = "0" := by
      rw [LateralControlSelect.lat_minus_stored w (by rw [h]; decide), h]; decide
    refine ⟨hs, ?_⟩
    have hl : (LateralControlSelect.btnminus_released w).label =
        (if (LateralControlSelect.btnminus_released w).params.get "LateralControlSelect" = "0"
          then "Pid"
        else if (LateralControlSelect.btnminus_released w).params.get "LateralControlSelect" = "1"
          then "Indi"
        else if (LateralControlSelect.btnminus_released w).params.get "LateralControlSelect" = "2"
          then "Lqr"
        else if (LateralControlSelect.btnminus_released w).params.get "LateralControlSelect" = "3"
          then "Torque"
        else w.label) := rfl
    rw [hl, hs]; rfl

/-- C4 (amended), at the stores that hold "3" and "0". -/
theorem lateralControl_saturates_witness :
    ((LateralControlSelect.btnplus_released
        (LateralControlSelect.new (Params.empty.put "LateralControlSelect" "3"))).params.get
          "LateralControlSelect" = "3"
      ∧ (LateralControlSelect.btnplus_released
        (LateralControlSelect.new (Params.empty.put "LateralControlSelect" "3"))).label = "Torque")
    ∧ ((LateralControlSelect.btnminus_released
        (LateralControlSelect.new (Params.empty.put "LateralControlSelect" "0"))).params.get
          "LateralControlSelect" = "0"
      ∧ (LateralControlSelect.btnminus_released
        (LateralControlSelect.new (Params.empty.put "LateralControlSelect" "0"))).label = "Pid") :=
  ⟨(lateralControl_saturates
      (LateralControlSelect.new (Params.empty.put "LateralControlSelect" "3"))).1 (by decide),
   (lateralControl_saturates
      (LateralControlSelect.new (Params.empty.put "LateralControlSelect" "0"))).2 (by decide)⟩

/-! ## C5: what a show event of the toggles panel does to the store -/

/-- C5 (as stated, refuted): a show event of the toggles panel can change the
store. With a non-empty 'CarParamsPersistent' record whose two capability
flags are false and 'EndToEndLong' = "1", `showEvent` returns and the key
'EndToEndLong' is absent afterwards. -/
theorem showEvent_changes_store :
    ∃ w', TogglesPanel.showEvent id (fun _ => .ok ⟨false, false⟩)
        (TogglesPanel.new id false
          ((Params.empty.put "CarParamsPersistent" "x").put "EndToEndLong" "1")) = .ok w'
      ∧ (TogglesPanel.new id false
          ((Params.empty.put "CarParamsPersistent" "x").put "EndToEndLong" "1")).params
            "EndToEndLong" = some "1"
      ∧ w'.params "EndToEndLong" = none :=
  ⟨_, rfl, by decide, by decide⟩

/-- C5 (amended): a show event of the toggles panel leaves every key other
than 'ExperimentalLongitudinalEnabled' and 'EndToEndLong' unchanged, and these
two it either leaves unchanged or removes. With an empty or absent
'CarParamsPersistent' it leaves every key unchanged; with a non-empty record
that decodes to `CP` it returns, and when the decoding raises the exception is
passed on. -/
theorem showEvent_store_frame (tr : String → String)
    (decode : String → Except KjException CarParams) (w : TogglesPanel) :
    (w.params.get "CarParamsPersistent" = "" →
      ∃ w', TogglesPanel.showEvent tr decode w = .ok w' ∧ w'.params = w.params)
    ∧ (∀ CP, w.params.get "CarParamsPersistent" ≠ "" →
        decode (w.params.get "CarParamsPersistent") = .ok CP →
        ∃ w', TogglesPanel.showEvent tr decode w = .ok w' ∧
          (∀ k, k ≠ "ExperimentalLongitudinalEnabled" → k ≠ "EndToEndLong" →
            w'.params k = w.params k) ∧
          (∀ k, w'.params k = w.params k ∨ w'.params k = none))
    ∧ (∀ e, w.params.get "CarParamsPersistent" ≠ "" →
        decode (w.params.get "CarParamsPersistent") = .error e →
        TogglesPanel.showEvent tr decode w = .error e) := by
  refine ⟨?_, ?_, ?_⟩
  · intro h
    exact ⟨_, TogglesPanel.updateToggles_empty_eq tr decode w h, rfl⟩
  · intro CP h hd
    refine ⟨_, TogglesPanel.updateToggles_decoded_eq tr decode w CP h hd, ?_, ?_⟩
    · intro k h₁ h₂
      rw [TogglesPanel.updateWithCarParams_params]
      split <;> split <;> simp [Params.remove, h₁, h₂]
    · intro k
      rw [TogglesPanel.updateWithCarParams_params]
      by_cases h₁ : k = "ExperimentalLongitudinalEnabled" <;>
        by_cases h₂ : k = "EndToEndLong" <;>
        split <;> split <;> simp [Params.remove, h₁, h₂]
  · intro e h hd
    exact TogglesPanel.updateToggles_raise tr decode w e h hd

/-- C5 (amended), at a panel with a non-empty record: the key 'IsMetric' keeps
its value. -/
theorem showEvent_store_frame_witness :
    ∃ w', TogglesPanel.showEvent id (fun _ => .ok ⟨false, false⟩)
        (TogglesPanel.new id false
          ((Params.empty.put "CarParamsPersistent" "x").put "IsMetric" "1")) = .ok w' ∧
      (∀ k, k ≠ "ExperimentalLongitudinalEnabled" → k ≠ "EndToEndLong" →
        w'.params k = (TogglesPanel.new id false
          ((Params.empty.put "CarParamsPersistent" "x").put "IsMetric" "1")).params k) ∧
      (∀ k, w'.params k = (TogglesPanel.new id false
          ((Params.empty.put "CarParamsPersistent" "x").put "IsMetric" "1")).params k
        ∨ w'.params k = none) :=
  (showEvent_store_frame id (fun _ => .ok ⟨false, false⟩)
    (TogglesPanel.new id false
      ((Params.empty.put "CarParamsPersistent" "x").put "IsMetric" "1"))).2.1
    ⟨false, false⟩ (by decide) rfl

/-! ## C6: sequences of presses keep a valid option valid -/

theorem QString.toInt_number_small (n : Int) (h₀ : 0 ≤ n) (h₃ : n ≤ 3) :
    toInt (number n) = n := by
  interval_cases n <;> decide

/-- A stored option text of a picker with at most four options reads back as
its index. -/
theorem toInt_of_isOption (M : Nat) (hM : M ≤ 3) (s : String) (h : IsOption M s) :
    0 ≤ QString.toInt s ∧ QString.toInt s ≤ (M : Int) := by
  obtain ⟨n, h₀, h₁, rfl⟩ := h
  have hM' : (M : Int) ≤ 3 := by exact_mod_cast hM
  rw [QString.toInt_number_small n h₀ (le_trans h₁ hM')]
  exact ⟨h₀, h₁⟩

theorem isOption_minus (M : Nat) (n : Int) (h₁ : n ≤ (M : Int)) :
    IsOption M (QString.number (max (n - 1) 0)) :=
  ⟨_, le_max_right _ _, by omega, rfl⟩

theorem isOption_plus (M : Nat) (n : Int) (h₀ : -1 ≤ n) :
    IsOption M (QString.number (min (n + 1) (M : Int))) :=
  ⟨_, by omega, min_le_right _ _, rfl⟩

theorem LateralControlSelect.lat_press_other (w : Picker) (pr : Press) (k : String)
    (h : k ≠ "LateralControlSelect") : (press w pr).params k = w.params k := by
  cases pr
  · rw [press, lat_minus_params, Params.put_other _ _ _ _ h]
  · rw [press, lat_plus_params, Params.put_other _ _ _ _ h]

theorem MfcSelect.mfc_press_other (w : Picker) (pr : Press) (k : String)
    (h : k ≠ "MfcSelect") : (press w pr).params k = w.params k := by
  cases pr
  · rw [press, mfc_minus_params, Params.put_other _ _ _ _ h]
  · rw [press, mfc_plus_params, Params.put_other _ _ _ _ h]

theorem AebSelect.aeb_press_other (w : Picker) (pr : Press) (k : String)
    (h : k ≠ "AebSelect") : (press w pr).params k = w.params k := by
  cases pr
  · rw [press, aeb_minus_params, Params.put_other _ _ _ _ h]
  · rw [press, aeb_plus_params, Params.put_other _ _ _ _ h]

theorem LateralControlSelect.lat_press_isOption (w : Picker) (pr : Press)
    (h : IsOption 3 (w.params.get "LateralControlSelect")) :
    IsOption 3 ((press w pr).params.get "LateralControlSelect") := by
  obtain ⟨h₀, h₁⟩ := toInt_of_isOption 3 (le_refl _) _ h
  cases pr
  · rw [press, lat_minus_stored w (by unfold INT_MIN; omega)]
    exact isOption_minus 3 _ h₁
  · rw [press, lat_plus_stored w (by unfold INT_MAX; omega)]
    exact isOption_plus 3 _ (by omega)

theorem MfcSelect.mfc_press_isOption (w : Picker) (pr : Press)
    (h : IsOption 2 (w.params.get "MfcSelect")) :
    IsOption 2 ((press w pr).params.get "MfcSelect") := by
  obtain ⟨h₀, h₁⟩ := toInt_of_isOption 2 (by decide) _ h
  cases pr
  · rw [press, mfc_minus_stored w (by unfold INT_MIN; omega)]
    exact isOption_minus 2 _ h₁
  · rw [press, mfc_plus_stored w (by unfold INT_MAX; omega)]
    exact isOption_plus 2 _ (by omega)

theorem AebSelect.aeb_press_isOption (w : Picker) (pr : Press)
    (h : IsOption 1 (w.params.get "AebSelect")) :
    IsOption 1 ((press w pr).params.get "AebSelect") := by
  obtain ⟨h₀, h₁⟩ := toInt_of_isOption 1 (by decide) _ h
  cases pr
  · rw [press, aeb_minus_stored w (by unfold INT_MIN; omega)]
    exact isOption_minus 1 _ h₁
  · rw [press, aeb_plus_stored w (by unfold INT_MAX; omega)]
    exact isOption_plus 1 _ (by omega)

/-- An invariant of the store of a picker that every press keeps is kept by
every sequence of presses. -/
theorem foldl_press_invariant (step : Picker → Press → Picker) (I : Params → Prop)
    (hstep : ∀ w pr, I w.params → I (step w pr).params) :
    ∀ (ps : List Press) (w : Picker), I w.params → I (ps.foldl step w).params := by
  intro ps
  induction ps with
  | nil => intro w h; exact h
  | cons pr ps ih => intro w h; exact ih (step w pr) (hstep w pr h)

/-- C6: each picker preserves its own option range. If the text stored under
the picker's key is the decimal text of one of its option indices
(LateralControlSelect 0..3, MfcSelect 0..2, AebSelect 0..1), it still is after
any sequence of increment and decrement presses on that picker, and the
presses change no key other than the picker's own. -/
theorem pickers_preserve_option_range (ps : List Press) (w : Picker) :
    ((IsOption 3 (w.params.get "LateralControlSelect") →
        IsOption 3 ((ps.foldl LateralControlSelect.press w).params.get "LateralControlSelect"))
      ∧ ∀ k, k ≠ "LateralControlSelect" →
        (ps.foldl LateralControlSelect.press w).params k = w.params k)
    ∧ ((IsOption 2 (w.params.get "MfcSelect") →
        IsOption 2 ((ps.foldl MfcSelect.press w).params.get "MfcSelect"))
      ∧ ∀ k, k ≠ "MfcSelect" → (ps.foldl MfcSelect.press w).params k = w.params k)
    ∧ ((IsOption 1 (w.params.get "AebSelect") →
        IsOption 1 ((ps.foldl AebSelect.press w).params.get "AebSelect"))
      ∧ ∀ k, k ≠ "AebSelect" → (ps.foldl AebSelect.press w).params k = w.params k) := by
  refine ⟨⟨?_, ?_⟩, ⟨?_, ?_⟩, ⟨?_, ?_⟩⟩
  · exact foldl_press_invariant LateralControlSelect.press
      (fun p => IsOption 3 (p.get "LateralControlSelect"))
      (fun w pr h => LateralControlSelect.lat_press_isOption w pr h) ps w
  · intro k hk
    exact foldl_press_invariant LateralControlSelect.press (fun p => p k = w.params k)
      (fun w' pr h => (LateralControlSelect.lat_press_other w' pr k hk).trans h) ps w rfl
  · exact foldl_press_invariant MfcSelect.press (fun p => IsOption 2 (p.get "MfcSelect"))
      (fun w pr h => MfcSelect.mfc_press_isOption w pr h) ps w
  · intro k hk
    exact foldl_press_invariant MfcSelect.press (fun p => p k = w.params k)
      (fun w' pr h => (MfcSelect.mfc_press_other w' pr k hk).trans h) ps w rfl
  · exact foldl_press_invariant AebSelect.press (fun p => IsOption 1 (p.get "AebSelect"))
      (fun w pr h => AebSelect.aeb_press_isOption w pr h) ps w
  · intro k hk
    exact foldl_press_invariant AebSelect.press (fun p => p k = w.params k)
      (fun w' pr h => (AebSelect.aeb_press_other w' pr k hk).trans h) ps w rfl

/-- C6, at the store that holds "2" for the lateral-control picker and the
presses plus, plus, minus. -/
theorem pickers_preserve_option_range_witness :
    IsOption 3 (([Press.plus, Press.plus, Press.minus].foldl LateralControlSelect.press
        (LateralControlSelect.new (Params.empty.put "LateralControlSelect" "2"))).params.get
          "LateralControlSelect")
    ∧ ([Press.plus, Press.plus, Press.minus].foldl LateralControlSelect.press
        (LateralControlSelect.new (Params.empty.put "LateralControlSelect" "2"))).params
          "MfcSelect" = none :=
  ⟨(pickers_preserve_option_range [Press.plus, Press.plus, Press.minus]
      (LateralControlSelect.new (Params.empty.put "LateralControlSelect" "2"))).1.1
      ((isOption_three _).2 (by decide)),
   (pickers_preserve_option_range [Press.plus, Press.plus, Press.minus]
      (LateralControlSelect.new (Params.empty.put "LateralControlSelect" "2"))).1.2
      "MfcSelect" (by decide)⟩

/-! ## C7: reboot and power off are written only when disengaged and confirmed -/

/-- C7: `reboot` stores 'DoReboot' = true, and `poweroff` stores
'DoShutdown' = true, when the system is not engaged at the click, the user
confirms and the system is still not engaged once the dialog has closed; the
write changes no other key. In every other case the store is left as it was,
so the store changes only in the first case. -/
theorem reboot_poweroff_guard (env : DialogEnv) (params : Params) :
    ((env.engaged = false ∧ env.confirm = true ∧ env.engagedAfter = false →
        DevicePanel.reboot env params = params.putBool "DoReboot" true
        ∧ (DevicePanel.reboot env params).getBool "DoReboot" = true
        ∧ ∀ k, k ≠ "DoReboot" → DevicePanel.reboot env params k = params k)
      ∧ (¬ (env.engaged = false ∧ env.confirm = true ∧ env.engagedAfter = false) →
        DevicePanel.reboot env params = params)
      ∧ (DevicePanel.reboot env params ≠ params →
        env.engaged = false ∧ env.confirm = true ∧ env.engagedAfter = false))
    ∧ ((env.engaged = false ∧ env.confirm = true ∧ env.engagedAfter = false →
        DevicePanel.poweroff env params = params.putBool "DoShutdown" true
        ∧ (DevicePanel.poweroff env params).getBool "DoShutdown" = true
        ∧ ∀ k, k ≠ "DoShutdown" → DevicePanel.poweroff env params k = params k)
      ∧ (¬ (env.engaged = false ∧ env.confirm = true ∧ env.engagedAfter = false) →
        DevicePanel.poweroff env params = params)
      ∧ (DevicePanel.poweroff env params ≠ params →
        env.engaged = false ∧ env.confirm = true ∧ env.engagedAfter = false)) := by
  rcases env with ⟨a, b, c⟩
  refine ⟨⟨?_, ?_, ?_⟩, ⟨?_, ?_, ?_⟩⟩
  · rintro ⟨rfl, rfl, rfl⟩
    refine ⟨rfl, ?_, ?_⟩
    · simp [DevicePanel.reboot, Params.putBool, Params.getBool, Params.get_put_same]
    · intro k hk
      simp [DevicePanel.reboot, Params.putBool, Params.put, hk]
  · cases a <;> cases b <;> cases c <;> simp [DevicePanel.reboot]
  · cases a <;> cases b <;> cases c <;> simp [DevicePanel.reboot]
  · rintro ⟨rfl, rfl, rfl⟩
    refine ⟨rfl, ?_, ?_⟩
    · simp [DevicePanel.poweroff, Params.putBool, Params.getBool, Params.get_put_same]
    · intro k hk
      simp [DevicePanel.poweroff, Params.putBool, Params.put, hk]
  · cases a <;> cases b <;> cases c <;> simp [DevicePanel.poweroff]
  · cases a <;> cases b <;> cases c <;> simp [DevicePanel.poweroff]

/-- C7, for a click while disengaged that the user confirms, and for a click
while engaged. -/
theorem reboot_poweroff_guard_witness :
    (DevicePanel.reboot ⟨false, true, false⟩ Params.empty).getBool "DoReboot" = true
    ∧ DevicePanel.poweroff ⟨true, true, false⟩ Params.empty = Params.empty :=
  ⟨((reboot_poweroff_guard ⟨false, true, false⟩ Params.empty).1.1 ⟨rfl, rfl, rfl⟩).2.1,
   (reboot_poweroff_guard ⟨true, true, false⟩ Params.empty).2.2.1 (by decide)⟩

/-! ## C8: when the end-to-end toggle is enabled, and its notice when it is not -/

/-- C8: with a non-empty 'CarParamsPersistent' that decodes to `CP`,
`updateToggles` returns and afterwards the 'EndToEndLong' toggle is enabled
exactly when (openpilotLongitudinalControl and not
experimentalLongitudinalAvailable) or (experimentalLongitudinalAvailable and
'ExperimentalLongitudinalEnabled' is true in the store); when it is disabled
its description starts with the bold notice about experimental longitudinal
control if experimentalLongitudinalAvailable, and with the bold notice that
longitudinal control is not available otherwise. -/
theorem e2eToggle_enabled_iff (tr : String → String)
    (decode : String → Except KjException CarParams) (w : TogglesPanel) (CP : CarParams)
    (h : w.params.get "CarParamsPersistent" ≠ "")
    (hd : decode (w.params.get "CarParamsPersistent") = .ok CP) :
    ∃ w', TogglesPanel.updateToggles tr decode w = .ok w' ∧
      ((w'.toggles "EndToEndLong").enabled = true ↔
        (CP.openpilotLongitudinalControl = true ∧ CP.experimentalLongitudinalAvailable = false)
        ∨ (CP.experimentalLongitudinalAvailable = true ∧
            w.params.getBool "ExperimentalLongitudinalEnabled" = true)) ∧
      ((w'.toggles "EndToEndLong").enabled = false →
        (CP.experimentalLongitudinalAvailable = true →
          ∃ rest, (w'.toggles "EndToEndLong").description =
            "<b>Enable experimental longitudinal control to enable this.</b>" ++ rest) ∧
        (CP.experimentalLongitudinalAvailable = false →
          ∃ rest, (w'.toggles "EndToEndLong").description =
            "<b>openpilot longitudinal control is not currently available for this car.</b>"
              ++ rest)) := by
  refine ⟨_, TogglesPanel.updateToggles_decoded_eq tr decode w CP h hd, ?_, ?_⟩
  · rw [TogglesPanel.updateWithCarParams_e2e]
    rcases CP with ⟨a, b⟩
    cases a <;> cases b <;>
      cases hb : w.params.getBool "ExperimentalLongitudinalEnabled" <;>
      simp [ParamControl.refresh, ParamControl.setDescription, ParamControl.setEnabled]
  · rw [TogglesPanel.updateWithCarParams_e2e]
    intro hen
    rcases CP with ⟨a, b⟩
    constructor
    · intro ha
      refine ⟨"<br><br>" ++ TogglesPanel.e2e_description tr, ?_⟩
      simp only at ha
      subst ha
      cases b <;> cases hb : w.params.getBool "ExperimentalLongitudinalEnabled" <;>
        simp [hb, ParamControl.refresh, ParamControl.setDescription, ParamControl.setEnabled]
          at hen ⊢ <;> rfl
    · intro ha
      refine ⟨"<br><br>" ++ TogglesPanel.e2e_description tr, ?_⟩
      simp only at ha
      subst ha
      cases b <;> cases hb : w.params.getBool "ExperimentalLongitudinalEnabled" <;>
        simp [hb, ParamControl.refresh, ParamControl.setDescription, ParamControl.setEnabled]
          at hen ⊢ <;> rfl

/-- C8, at a panel whose record offers experimental longitudinal control while
the flag 'ExperimentalLongitudinalEnabled' is not set: the toggle is disabled
and shows the notice. -/
theorem e2eToggle_enabled_iff_witness :
    ∃ w', TogglesPanel.updateToggles id (fun _ => .ok ⟨true, false⟩)
        (TogglesPanel.new id false (Params.empty.put "CarParamsPersistent" "x")) = .ok w' ∧
      ((w'.toggles "EndToEndLong").enabled = true ↔
        (false = true ∧ true = false)
        ∨ (true = true ∧
            (TogglesPanel.new id false (Params.empty.put "CarParamsPersistent" "x")).params.getBool
              "ExperimentalLongitudinalEnabled" = true)) ∧
      ((w'.toggles "EndToEndLong").enabled = false →
        (true = true →
          ∃ rest, (w'.toggles "EndToEndLong").description =
            "<b>Enable experimental longitudinal control to enable this.</b>" ++ rest) ∧
        (true = false →
          ∃ rest, (w'.toggles "EndToEndLong").description =
            "<b>openpilot longitudinal control is not currently available for this car.</b>"
              ++ rest)) :=
  e2eToggle_enabled_iff id (fun _ => .ok ⟨true, false⟩)
    (TogglesPanel.new id false (Params.empty.put "CarParamsPersistent" "x"))
    ⟨true, false⟩ (by decide) rfl

/-! ## C9: the value stored by a press -/

/-- C9 (as stated, refuted): at the ends of the `int` range the stored value is
not the clamped neighbour. With "2147483647" stored, `n + 1` overflows and the
increment button stores "-2147483648", not the text of `min (n + 1) 3`; with
"-2147483648" stored, `n - 1` overflows and the decrement button stores
"2147483647", not the text of `max (n - 1) 0`. Also, the integer text
"99999999999" does not fit an `int`, so it is read as 0 and the increment
button stores "1". -/
theorem press_overflows_at_int_limits :
    ((LateralControlSelect.btnplus_released
        (LateralControlSelect.new (Params.empty.put "LateralControlSelect" "2147483647"))).params.get
          "LateralControlSelect" = "-2147483648"
      ∧ (LateralControlSelect.btnplus_released
        (LateralControlSelect.new (Params.empty.put "LateralControlSelect" "2147483647"))).params.get
          "LateralControlSelect" ≠
        QString.number (min (QString.toInt ((LateralControlSelect.new
          (Params.empty.put "LateralControlSelect" "2147483647")).params.get
            "LateralControlSelect") + 1) 3))
    ∧ ((LateralControlSelect.btnminus_released
        (LateralControlSelect.new (Params.empty.put "LateralControlSelect" "-2147483648"))).params.get
          "LateralControlSelect" = "2147483647"
      ∧ (LateralControlSelect.btnminus_released
        (LateralControlSelect.new (Params.empty.put "LateralControlSelect" "-2147483648"))).params.get
          "LateralControlSelect" ≠
        QString.number (max (QString.toInt ((LateralControlSelect.new
          (Params.empty.put "LateralControlSelect" "-2147483648")).params.get
            "LateralControlSelect") - 1) 0))
    ∧ (QString.parseDecimal "99999999999" = some 99999999999
      ∧ (LateralControlSelect.btnplus_released
        (LateralControlSelect.new (Params.empty.put "LateralControlSelect" "99999999999"))).params.get
          "LateralControlSelect" = "1"
      ∧ QString.number (min (99999999999 + 1) 3) = "3") := by
  decide

/-- C9 (amended): for each picker with highest option index M
(LateralControlSelect 3, MfcSelect 2, AebSelect 1) and prior value `n`, the
`int` that `QString::toInt` reads from the stored text (0 when the key is
absent, the text is not a number, or the number does not fit an `int`): a
decrement press stores the decimal text
of `max (n - 1) 0` when `n` is not the smallest `int`, and an increment press
stores the decimal text of `min (n + 1) M` when `n` is not the largest `int`;
so a decrement at 0 stores "0" and an increment at M stores the text of M. -/
theorem press_stores_clamped_neighbour (w : Picker) :
    ((INT_MIN < QString.toInt (w.params.get "LateralControlSelect") →
        (LateralControlSelect.btnminus_released w).params.get "LateralControlSelect" =
          QString.number (max (QString.toInt (w.params.get "LateralControlSelect") - 1) 0))
      ∧ (QString.toInt (w.params.get "LateralControlSelect") < INT_MAX →
        (LateralControlSelect.btnplus_released w).params.get "LateralControlSelect" =
          QString.number (min (QString.toInt (w.params.get "LateralControlSelect") + 1) 3))
      ∧ (QString.toInt (w.params.get "LateralControlSelect") = 0 →
        (LateralControlSelect.btnminus_released w).params.get "LateralControlSelect" = "0")
      ∧ (QString.toInt (w.params.get "LateralControlSelect") = 3 →
        (LateralControlSelect.btnplus_released w).params.get "LateralControlSelect" = "3"))
    ∧ ((INT_MIN < QString.toInt (w.params.get "MfcSelect") →
        (MfcSelect.btnminus_released w).params.get "MfcSelect" =
          QString.number (max (QString.toInt (w.params.get "MfcSelect") - 1) 0))
      ∧ (QString.toInt (w.params.get "MfcSelect") < INT_MAX →
        (MfcSelect.btnplus_released w).params.get "MfcSelect" =
          QString.number (min (QString.toInt (w.params.get "MfcSelect") + 1) 2))
      ∧ (QString.toInt (w.params.get "MfcSelect") = 0 →
        (MfcSelect.btnminus_released w).params.get "MfcSelect" = "0")
      ∧ (QString.toInt (w.params.get "MfcSelect") = 2 →
        (MfcSelect.btnplus_released w).params.get "MfcSelect" = "2"))
    ∧ ((INT_MIN < QString.toInt (w.params.get "AebSelect") →
        (AebSelect.btnminus_released w).params.get "AebSelect" =
          QString.number (max (QString.toInt (w.params.get "AebSelect") - 1) 0))
      ∧ (QString.toInt (w.params.get "AebSelect") < INT_MAX →
        (AebSelect.btnplus_released w).params.get "AebSelect" =
          QString.number (min (QString.toInt (w.params.get "AebSelect") + 1) 1))
      ∧ (QString.toInt (w.params.get "AebSelect") = 0 →
        (AebSelect.btnminus_released w).params.get "AebSelect" = "0")
      ∧ (QString.toInt (w.params.get "AebSelect") = 1 →
        (AebSelect.btnplus_released w).params.get "AebSelect" = "1"))
    ∧ (∀ key, w.params key = none ∨ QString.parseDecimal (w.params.get key) = none →
        QString.toInt (w.params.get key) = 0)
    ∧ (∀ key v, QString.parseDecimal (w.params.get key) = some v →
        (v < INT_MIN ∨ INT_MAX < v → QString.toInt (w.params.get key) = 0)
        ∧ (INT_MIN ≤ v ∧ v ≤ INT_MAX → QString.toInt (w.params.get key) = v)) := by
  refine ⟨⟨LateralControlSelect.lat_minus_stored w, LateralControlSelect.lat_plus_stored w, ?_, ?_⟩,
    ⟨MfcSelect.mfc_minus_stored w, MfcSelect.mfc_plus_stored w, ?_, ?_⟩,
    ⟨AebSelect.aeb_minus_stored w, AebSelect.aeb_plus_stored w, ?_, ?_⟩, ?_, ?_⟩
  · intro h
    rw [LateralControlSelect.lat_minus_stored w (by rw [h]; decide), h]; decide
  · intro h
    rw [LateralControlSelect.lat_plus_stored w (by rw [h]; decide), h]; decide
  · intro h
    rw [MfcSelect.mfc_minus_stored w (by rw [h]; decide), h]; decide
  · intro h
    rw [MfcSelect.mfc_plus_stored w (by rw [h]; decide), h]; decide
  · intro h
    rw [AebSelect.aeb_minus_stored w (by rw [h]; decide), h]; decide
  · intro h
    rw [AebSelect.aeb_plus_stored w (by rw [h]; decide), h]; decide
  · intro key h
    rcases h with h | h
    · rw [Params.get_absent _ _ h]; exact QString.toInt_empty
    · simp [QString.toInt, h]
  · intro key v h
    constructor
    · intro hv
      have : ¬ (INT_MIN ≤ v ∧ v ≤ INT_MAX) := by
        rcases hv with hv | hv
        · exact fun hc => absurd hc.1 (not_le.2 hv)
        · exact fun hc => absurd hc.2 (not_le.2 hv)
      simp [QString.toInt, h, this]
    · intro hv
      simp [QString.toInt, h, hv]

/-- C9 (amended), at the store that holds "7" for the lateral-control picker
and nothing for the camera picker. -/
theorem press_stores_clamped_neighbour_witness :
    (LateralControlSelect.btnminus_released
        (LateralControlSelect.new (Params.empty.put "LateralControlSelect" "7"))).params.get
          "LateralControlSelect" = QString.number (max (QString.toInt
            ((LateralControlSelect.new (Params.empty.put "LateralControlSelect" "7")).params.get
              "LateralControlSelect") - 1) 0)
    ∧ (MfcSelect.btnplus_released
        (LateralControlSelect.new (Params.empty.put "LateralControlSelect" "7"))).params.get
          "MfcSelect" = QString.number (min (QString.toInt
            ((LateralControlSelect.new (Params.empty.put "LateralControlSelect" "7")).params.get
              "MfcSelect") + 1) 2) :=
  ⟨(press_stores_clamped_neighbour
      (LateralControlSelect.new (Params.empty.put "LateralControlSelect" "7"))).1.1 (by decide),
   (press_stores_clamped_neighbour
      (LateralControlSelect.new (Params.empty.put "LateralControlSelect" "7"))).2.1.2.1
      (by decide)⟩

/-! ## C10: the label of a picker -/

theorem LateralControlSelect.lat_refresh_label (w : Picker) :
    (IsOption 3 (w.params.get "LateralControlSelect") →
      optionName title (w.params.get "LateralControlSelect") = some (refresh w).label)
    ∧ (¬ IsOption 3 (w.params.get "LateralControlSelect") → (refresh w).label = w.label) := by
  have hl : (refresh w).label =
      (if w.params.get "LateralControlSelect" = "0" then "Pid"
      else if w.params.get "LateralControlSelect" = "1" then "Indi"
      else if w.params.get "LateralControlSelect" = "2" then "Lqr"
      else if w.params.get "LateralControlSelect" = "3" then "Torque"
      else w.label) := rfl
  rw [hl, isOption_three]
  constructor
  · intro h
    simp only [List.mem_cons, List.mem_singleton, List.not_mem_nil, or_false] at h
    have t0 : optionName title "0" = some "Pid" := by decide
    have t1 : optionName title "1" = some "Indi" := by decide
    have t2 : optionName title "2" = some "Lqr" := by decide
    have t3 : optionName title "3" = some "Torque" := by decide
    rcases h with h | h | h | h <;> rw [h] <;> simp [t0, t1, t2, t3]
  · intro h
    simp only [List.mem_cons, List.mem_singleton, List.not_mem_nil, or_false, not_or] at h
    simp [h.1, h.2.1, h.2.2.1, h.2.2.2]

theorem MfcSelect.mfc_refresh_label (w : Picker) :
    (IsOption 2 (w.params.get "MfcSelect") →
      optionName title (w.params.get "MfcSelect") = some (refresh w).label)
    ∧ (¬ IsOption 2 (w.params.get "MfcSelect") → (refresh w).label = w.label) := by
  have hl : (refresh w).label =
      (if w.params.get "MfcSelect" = "0" then "Auto"
      else if w.params.get "MfcSelect" = "1" then "Ldws,Lkas"
      else if w.params.get "MfcSelect" = "2" then "Lfa"
      else w.label) := rfl
  rw [hl, isOption_two]
  constructor
  · intro h
    simp only [List.mem_cons, List.mem_singleton, List.not_mem_nil, or_false] at h
    have t0 : optionName title "0" = some "Auto" := by decide
    have t1 : optionName title "1" = some "Ldws,Lkas" := by decide
    have t2 : optionName title "2" = some "Lfa" := by decide
    rcases h with h | h | h <;> rw [h] <;> simp [t0, t1, t2]
  · intro h
    simp only [List.mem_cons, List.mem_singleton, List.not_mem_nil, or_false, not_or] at h
    simp [h.1, h.2.1, h.2.2]

theorem AebSelect.aeb_refresh_label (w : Picker) :
    (IsOption 1 (w.params.get "AebSelect") →
      optionName title (w.params.get "AebSelect") = some (refresh w).label)
    ∧ (¬ IsOption 1 (w.params.get "AebSelect") → (refresh w).label = w.label) := by
  have hl : (refresh w).label =
      (if w.params.get "AebSelect" = "0" then "Scc12"
      else if w.params.get "AebSelect" = "1" then "Fca11"
      else w.label) := rfl
  rw [hl, isOption_one]
  constructor
  · intro h
    simp only [List.mem_cons, List.mem_singleton, List.not_mem_nil, or_false] at h
    have t0 : optionName title "0" = some "Scc12" := by decide
    have t1 : optionName title "1" = some "Fca11" := by decide
    rcases h with h | h <;> rw [h] <;> simp [t0, t1]
  · intro h
    simp only [List.mem_cons, List.mem_singleton, List.not_mem_nil, or_false, not_or] at h
    simp [h.1, h.2]

/-- A press is the store update followed by `refresh`. -/
theorem LateralControlSelect.lat_press_eq_refresh (w : Picker) (pr : Press) :
    press w pr = refresh { w with params := (press w pr).params } := by
  cases pr <;> rfl

theorem MfcSelect.mfc_press_eq_refresh (w : Picker) (pr : Press) :
    press w pr = refresh { w with params := (press w pr).params } := by
  cases pr <;> rfl

theorem AebSelect.aeb_press_eq_refresh (w : Picker) (pr : Press) :
    press w pr = refresh { w with params := (press w pr).params } := by
  cases pr <;> rfl

/-- C10 (as stated, refuted): after a press the label need not name the stored
value. With "9" stored, the lateral-control picker is built with an empty
label; a decrement press stores "8", which names no option, and the label
still shows the empty text. -/
theorem label_stale_after_press :
    (LateralControlSelect.btnminus_released
        (LateralControlSelect.new (Params.empty.put "LateralControlSelect" "9"))).params.get
          "LateralControlSelect" = "8"
    ∧ (LateralControlSelect.btnminus_released
        (LateralControlSelect.new (Params.empty.put "LateralControlSelect" "9"))).label = ""
    ∧ optionName LateralControlSelect.title
        ((LateralControlSelect.btnminus_released
          (LateralControlSelect.new (Params.empty.put "LateralControlSelect" "9"))).params.get
            "LateralControlSelect") ≠
      some (LateralControlSelect.btnminus_released
        (LateralControlSelect.new (Params.empty.put "LateralControlSelect" "9"))).label
    ∧ (LateralControlSelect.btnminus_released
        (LateralControlSelect.new (Params.empty.put "LateralControlSelect" "9"))).label ∉
      titleOptions LateralControlSelect.title := by
  decide

/-- C10 (amended): the label names the stored option in the order of the
picker's title: LateralControlSelect shows Pid/Indi/Lqr/Torque for stored
"0"/"1"/"2"/"3", MfcSelect shows Auto/'Ldws,Lkas'/Lfa for "0"/"1"/"2",
AebSelect shows Scc12/Fca11 for "0"/"1". For every prior stored content, after
an increment or decrement press the label shows the name of the value that the
press stored when that value is an option index of the picker; when it is not,
the label keeps the text it showed before the press. -/
theorem label_names_stored_option (w : Picker) (pr : Press) :
    ((optionName LateralControlSelect.title "0" = some "Pid"
        ∧ optionName LateralControlSelect.title "1" = some "Indi"
        ∧ optionName LateralControlSelect.title "2" = some "Lqr"
        ∧ optionName LateralControlSelect.title "3" = some "Torque")
      ∧ (IsOption 3 (w.params.get "LateralControlSelect") →
        optionName LateralControlSelect.title (w.params.get "LateralControlSelect") =
          some (LateralControlSelect.refresh w).label)
      ∧ (IsOption 3 ((LateralControlSelect.press w pr).params.get "LateralControlSelect") →
        optionName LateralControlSelect.title
          ((LateralControlSelect.press w pr).params.get "LateralControlSelect") =
            some (LateralControlSelect.press w pr).label)
      ∧ (¬ IsOption 3 ((LateralControlSelect.press w pr).params.get "LateralControlSelect") →
        (LateralControlSelect.press w pr).label = w.label))
    ∧ ((optionName MfcSelect.title "0" = some "Auto"
        ∧ optionName MfcSelect.title "1" = some "Ldws,Lkas"
        ∧ optionName MfcSelect.title "2" = some "Lfa")
      ∧ (IsOption 2 (w.params.get "MfcSelect") →
        optionName MfcSelect.title (w.params.get "MfcSelect") =
          some (MfcSelect.refresh w).label)
      ∧ (IsOption 2 ((MfcSelect.press w pr).params.get "MfcSelect") →
        optionName MfcSelect.title ((MfcSelect.press w pr).params.get "MfcSelect") =
          some (MfcSelect.press w pr).label)
      ∧ (¬ IsOption 2 ((MfcSelect.press w pr).params.get "MfcSelect") →
        (MfcSelect.press w pr).label = w.label))
    ∧ ((optionName AebSelect.title "0" = some "Scc12"
        ∧ optionName AebSelect.title "1" = some "Fca11")
      ∧ (IsOption 1 (w.params.get "AebSelect") →
        optionName AebSelect.title (w.params.get "AebSelect") =
          some (AebSelect.refresh w).label)
      ∧ (IsOption 1 ((AebSelect.press w pr).params.get "AebSelect") →
        optionName AebSelect.title ((AebSelect.press w pr).params.get "AebSelect") =
          some (AebSelect.press w pr).label)
      ∧ (¬ IsOption 1 ((AebSelect.press w pr).params.get "AebSelect") →
        (AebSelect.press w pr).label = w.label)) := by
  refine ⟨⟨by decide, (LateralControlSelect.lat_refresh_label w).1, ?_, ?_⟩,
    ⟨by decide, (MfcSelect.mfc_refresh_label w).1, ?_, ?_⟩,
    ⟨by decide, (AebSelect.aeb_refresh_label w).1, ?_, ?_⟩⟩
  · intro h
    have := (LateralControlSelect.lat_refresh_label
      { w with params := (LateralControlSelect.press w pr).params }).1 h
    rw [← LateralControlSelect.lat_press_eq_refresh] at this
    exact this
  · intro h
    have := (LateralControlSelect.lat_refresh_label
      { w with params := (LateralControlSelect.press w pr).params }).2 h
    rw [← LateralControlSelect.lat_press_eq_refresh] at this
    exact this
  · intro h
    have := (MfcSelect.mfc_refresh_label { w with params := (MfcSelect.press w pr).params }).1 h
    rw [← MfcSelect.mfc_press_eq_refresh] at this
    exact this
  · intro h
    have := (MfcSelect.mfc_refresh_label { w with params := (MfcSelect.press w pr).params }).2 h
    rw [← MfcSelect.mfc_press_eq_refresh] at this
    exact this
  · intro h
    have := (AebSelect.aeb_refresh_label { w with params := (AebSelect.press w pr).params }).1 h
    rw [← AebSelect.aeb_press_eq_refresh] at this
    exact this
  · intro h
    have := (AebSelect.aeb_refresh_label { w with params := (AebSelect.press w pr).params }).2 h
    rw [← AebSelect.aeb_press_eq_refresh] at this
    exact this

/-- C10 (amended), at the store that holds "1" for the lateral-control picker
and an increment press: "2" is stored and the label shows 'Lqr'. -/
theorem label_names_stored_option_witness :
    optionName LateralControlSelect.title
        ((LateralControlSelect.press
          (LateralControlSelect.new (Params.empty.put "LateralControlSelect" "1"))
          Press.plus).params.get "LateralControlSelect") =
      some (LateralControlSelect.press
        (LateralControlSelect.new (Params.empty.put "LateralControlSelect" "1"))
        Press.plus).label
    ∧ (LateralControlSelect.press
        (LateralControlSelect.new (Params.empty.put "LateralControlSelect" "1"))
        Press.plus).label = "Lqr" :=
  ⟨(label_names_stored_option
      (LateralControlSelect.new (Params.empty.put "LateralControlSelect" "1")) Press.plus).1.2.2.1
      ((isOption_three _).2 (by decide)),
   by decide⟩

/-! ## C11: the highlighted row of the vehicle-model selector -/

theorem SelectCar.selectLoop_not_mem (s : String) :
    ∀ (items : List String) (index row : Nat), s ∉ items →
      selectLoop s items index row = row := by
  intro items
  induction items with
  | nil => intro index row _; rfl
  | cons item rest ih =>
    intro index row h
    have h₁ : s ≠ item := fun e => h (e ▸ List.mem_cons_self _ _)
    have h₂ : s ∉ rest := fun m => h (List.mem_cons_of_mem _ m)
    simp only [selectLoop, h₁, if_false]
    exact ih (index + 1) row h₂

theorem SelectCar.selectLoop_first (s : String) :
    ∀ (items : List String) (index row i : Nat), items[i]? = some s →
      (∀ j, j < i → items[j]? ≠ some s) → selectLoop s items index row = index + i + 1 := by
  intro items
  induction items with
  | nil => intro index row i h; simp at h
  | cons item rest ih =>
    intro index row i h hfirst
    cases i with
    | zero =>
      have : item = s := by simpa using h
      simp [selectLoop, this]
    | succ i =>
      have h₁ : s ≠ item := by
        intro e
        exact hfirst 0 (Nat.succ_pos i) (by simp [e])
      simp only [selectLoop, h₁, if_false]
      rw [ih (index + 1) row i (by simpa using h)
        (fun j hj => by simpa using hfirst (j + 1) (Nat.succ_lt_succ hj))]
      omega

theorem SelectCar.selectLoop_le (s : String) :
    ∀ (items : List String) (index : Nat), selectLoop s items index 0 ≤ index + items.length := by
  intro items
  induction items with
  | nil => intro index; simp [selectLoop]
  | cons item rest ih =>
    intro index
    by_cases h : s = item
    · simp [selectLoop, h]
    · simp only [selectLoop, h, if_false, List.length_cons]
      have := ih (index + 1)
      omega

/-- C11: when the vehicle-model selector is built from the list `items` of
supported car names and the stored 'SelectedCar' value `s`, the highlighted row
is 0 (the 'Select car not use' entry) if `s` equals no list entry, and
otherwise is `i + 1` where `i` is the index of the first list entry equal to
`s`; the highlighted row is within 0..length of the list, so it is a row of
the widget. -/
theorem selectCar_highlighted_row (tr : String → String) (items : List String)
    (params : Params) :
    (params.get "SelectedCar" ∉ items →
      (SelectCar.new tr (some items) params).currentRow = 0)
    ∧ (∀ i, items[i]? = some (params.get "SelectedCar") →
        (∀ j, j < i → items[j]? ≠ some (params.get "SelectedCar")) →
        (SelectCar.new tr (some items) params).currentRow = i + 1)
    ∧ (SelectCar.new tr (some items) params).currentRow ≤ items.length
    ∧ (SelectCar.new tr (some items) params).currentRow
        < (SelectCar.new tr (some items) params).rows.length
    ∧ (SelectCar.new tr (some items) params).rows = tr "Select car not use" :: items := by
  refine ⟨?_, ?_, ?_, ?_, rfl⟩
  · intro h
    exact SelectCar.selectLoop_not_mem _ items 0 0 h
  · intro i h hfirst
    have := SelectCar.selectLoop_first _ items 0 0 i h hfirst
    simpa [SelectCar.new, get_list] using this
  · have := SelectCar.selectLoop_le (params.get "SelectedCar") items 0
    simpa [SelectCar.new, get_list] using this
  · have := SelectCar.selectLoop_le (params.get "SelectedCar") items 0
    simp only [SelectCar.new, get_list, List.length_cons]
    omega

/-- C11, for a list in which the stored car occurs twice: the first
occurrence, at index 1, is highlighted as row 2; and for a store without
'SelectedCar' row 0 is highlighted. -/
theorem selectCar_highlighted_row_witness :
    (SelectCar.new id (some ["GENESIS", "KIA K5", "KIA K5"])
        (Params.empty.put "SelectedCar" "KIA K5")).currentRow = 1 + 1
    ∧ (SelectCar.new id (some ["GENESIS", "KIA K5", "KIA K5"]) Params.empty).currentRow = 0 :=
  ⟨(selectCar_highlighted_row id ["GENESIS", "KIA K5", "KIA K5"]
      (Params.empty.put "SelectedCar" "KIA K5")).2.1 1 (by decide)
      (fun j hj => by interval_cases j; decide),
   (selectCar_highlighted_row id ["GENESIS", "KIA K5", "KIA K5"] Params.empty).1 (by decide)⟩

/-! ## C12: the 'Reset Calibration, LiveParameters' button -/

/-- C12: releasing the 'Reset Calibration, LiveParameters' button. If the user
declines the confirmation the store is unchanged and no delayed action is
pending. If the user confirms, the keys 'CalibrationParams' and
'LiveParameters' are absent after the handler and every other key keeps its
prior value; one delayed action is pending, and once it has run
'SoftRestartTriggered' is true, the two keys are still absent and every other
key keeps its prior value. (On whatever store the delayed action runs, it
sets 'SoftRestartTriggered' and changes no other key.) -/
theorem reset_calib_released_effect (params : Params) :
    ((DevicePanel.reset_calib_btn_released false params).params = params
      ∧ (DevicePanel.reset_calib_btn_released false params).timers = []
      ∧ (DevicePanel.reset_calib_btn_released false params).fire
          (DevicePanel.reset_calib_btn_released false params).params = params)
    ∧ ((DevicePanel.reset_calib_btn_released true params).params "CalibrationParams" = none
      ∧ (DevicePanel.reset_calib_btn_released true params).params "LiveParameters" = none
      ∧ (∀ k, k ≠ "CalibrationParams" → k ≠ "LiveParameters" →
          (DevicePanel.reset_calib_btn_released true params).params k = params k)
      ∧ (DevicePanel.reset_calib_btn_released true params).timers.length = 1)
    ∧ (((DevicePanel.reset_calib_btn_released true params).fire
          (DevicePanel.reset_calib_btn_released true params).params) "CalibrationParams" = none
      ∧ ((DevicePanel.reset_calib_btn_released true params).fire
          (DevicePanel.reset_calib_btn_released true params).params) "LiveParameters" = none
      ∧ ((DevicePanel.reset_calib_btn_released true params).fire
          (DevicePanel.reset_calib_btn_released true params).params).getBool
            "SoftRestartTriggered" = true
      ∧ (∀ k, k ≠ "CalibrationParams" → k ≠ "LiveParameters" → k ≠ "SoftRestartTriggered" →
          ((DevicePanel.reset_calib_btn_released true params).fire
            (DevicePanel.reset_calib_btn_released true params).params) k = params k))
    ∧ (∀ q : Params,
        ((DevicePanel.reset_calib_btn_released true params).fire q).getBool
          "SoftRestartTriggered" = true
        ∧ ∀ k, k ≠ "SoftRestartTriggered" →
          ((DevicePanel.reset_calib_btn_released true params).fire q) k = q k) := by
  refine ⟨⟨rfl, rfl, rfl⟩, ⟨?_, ?_, ?_, rfl⟩, ⟨?_, ?_, ?_, ?_⟩, ?_⟩
  · simp [DevicePanel.reset_calib_btn_released, Params.remove]
  · simp [DevicePanel.reset_calib_btn_released, Params.remove]
  · intro k h₁ h₂
    simp [DevicePanel.reset_calib_btn_released, Params.remove, h₁, h₂]
  · simp [DevicePanel.reset_calib_btn_released, Released.fire, Params.remove, Params.putBool,
      Params.put]
  · simp [DevicePanel.reset_calib_btn_released, Released.fire, Params.remove, Params.putBool,
      Params.put]
  · simp [DevicePanel.reset_calib_btn_released, Released.fire, Params.putBool, Params.getBool,
      Params.get_put_same]
  · intro k h₁ h₂ h₃
    simp [DevicePanel.reset_calib_btn_released, Released.fire, Params.remove, Params.putBool,
      Params.put, h₁, h₂, h₃]
  · intro q
    constructor
    · simp [DevicePanel.reset_calib_btn_released, Released.fire, Params.putBool, Params.getBool,
        Params.get_put_same]
    · intro k h
      simp [DevicePanel.reset_calib_btn_released, Released.fire, Params.putBool, Params.put, h]

/-- C12, at a store that holds a calibration, live parameters and the metric
flag: after a confirmed release and the delayed action the flag 'IsMetric'
still holds "1". -/
theorem reset_calib_released_effect_witness :
    ((DevicePanel.reset_calib_btn_released true
        (((Params.empty.put "CalibrationParams" "c").put "LiveParameters" "l").put
          "IsMetric" "1")).fire
      (DevicePanel.reset_calib_btn_released true
        (((Params.empty.put "CalibrationParams" "c").put "LiveParameters" "l").put
          "IsMetric" "1")).params) "IsMetric" = some "1" :=
  ((reset_calib_released_effect
      (((Params.empty.put "CalibrationParams" "c").put "LiveParameters" "l").put
        "IsMetric" "1")).2.2.1.2.2.2 "IsMetric" (by decide) (by decide) (by decide)).trans
    (by decide)

/-! ## C13: the store after `updateToggles` -/

/-- C13 (as stated, refuted): after `updateToggles`, 'EndToEndLong' = true does
not always imply that the toggle is enabled. In a panel built from a store
with 'EndToEndLong' = "1", 'EndToEndLongLock' = "1" and no
'CarParamsPersistent', the toggle is disabled by its lock; `updateToggles`
takes the empty branch, which leaves the store and the enabled state as they
are. -/
theorem e2e_true_but_disabled :
    ∃ w', TogglesPanel.updateToggles id (fun _ => .ok ⟨false, true⟩)
        (TogglesPanel.new id false
          ((Params.empty.put "EndToEndLong" "1").put "EndToEndLongLock" "1")) = .ok w'
      ∧ w'.params.getBool "EndToEndLong" = true
      ∧ (w'.toggles "EndToEndLong").enabled = false :=
  ⟨_, rfl, by decide, by decide⟩

/-- C13 (amended): the store effect of `updateToggles`. With an empty
'CarParamsPersistent' the store is unchanged. With a non-empty record that
decodes to `CP`, the resulting store is the prior store with
'ExperimentalLongitudinalEnabled' removed exactly when
`experimentalLongitudinalAvailable` is false, and 'EndToEndLong' removed
exactly when neither (`openpilotLongitudinalControl` and not
`experimentalLongitudinalAvailable`) nor (`experimentalLongitudinalAvailable`
and 'ExperimentalLongitudinalEnabled' true) holds; no other key is changed.
Hence, with a non-empty record, afterwards 'EndToEndLong' = true implies that
the EndToEndLong toggle is enabled. -/
theorem updateToggles_store_effect (tr : String → String)
    (decode : String → Except KjException CarParams) (w : TogglesPanel) :
    (w.params.get "CarParamsPersistent" = "" →
      ∃ w', TogglesPanel.updateToggles tr decode w = .ok w' ∧ w'.params = w.params)
    ∧ (∀ CP, w.params.get "CarParamsPersistent" ≠ "" →
        decode (w.params.get "CarParamsPersistent") = .ok CP →
        ∃ w', TogglesPanel.updateToggles tr decode w = .ok w' ∧
          (∀ k, w'.params k =
            if k = "ExperimentalLongitudinalEnabled" ∧
                CP.experimentalLongitudinalAvailable = false then none
            else if k = "EndToEndLong" ∧
                ¬ ((CP.openpilotLongitudinalControl = true ∧
                      CP.experimentalLongitudinalAvailable = false)
                  ∨ (CP.experimentalLongitudinalAvailable = true ∧
                      w.params.getBool "ExperimentalLongitudinalEnabled" = true)) then none
            else w.params k) ∧
          (w'.params.getBool "EndToEndLong" = true →
            (w'.toggles "EndToEndLong").enabled = true)) := by
  constructor
  · intro h
    exact ⟨_, TogglesPanel.updateToggles_empty_eq tr decode w h, rfl⟩
  · intro CP h hd
    refine ⟨_, TogglesPanel.updateToggles_decoded_eq tr decode w CP h hd, ?_, ?_⟩
    · intro k
      rw [TogglesPanel.updateWithCarParams_params]
      rcases CP with ⟨a, b⟩
      by_cases h₁ : k = "ExperimentalLongitudinalEnabled" <;>
        by_cases h₂ : k = "EndToEndLong" <;>
        cases a <;> cases b <;>
        cases hb : w.params.getBool "ExperimentalLongitudinalEnabled" <;>
        simp [Params.remove, h₁, h₂]
    · rw [TogglesPanel.updateWithCarParams_e2e, TogglesPanel.updateWithCarParams_params]
      rcases CP with ⟨a, b⟩
      cases a <;> cases b <;>
        cases hb : w.params.getBool "ExperimentalLongitudinalEnabled" <;>
        simp [Params.getBool, Params.get, Params.remove, ParamControl.refresh,
          ParamControl.setDescription, ParamControl.setEnabled]

/-- C13 (amended), at a panel whose record offers no longitudinal control and
whose store holds 'EndToEndLong' = "1": the key is removed, the key 'IsMetric'
is kept. -/
theorem updateToggles_store_effect_witness :
    ∃ w', TogglesPanel.updateToggles id (fun _ => .ok ⟨false, false⟩)
        (TogglesPanel.new id false
          (((Params.empty.put "CarParamsPersistent" "x").put "EndToEndLong" "1").put
            "IsMetric" "1")) = .ok w'
      ∧ w'.params "EndToEndLong" = none ∧ w'.params "IsMetric" = some "1" := by
  obtain ⟨w', h, hk, _⟩ := (updateToggles_store_effect id (fun _ => .ok ⟨false, false⟩)
    (TogglesPanel.new id false
      (((Params.empty.put "CarParamsPersistent" "x").put "EndToEndLong" "1").put
        "IsMetric" "1"))).2 ⟨false, false⟩ (by decide) rfl
  exact ⟨w', h, (hk "EndToEndLong").trans (by decide), (hk "IsMetric").trans (by decide)⟩

/-! ## C14: locked toggles -/

/-- The constructor of the toggles panel leaves the store as it is. -/
theorem TogglesPanel.new_params (tr : String → String) (enableMaps : Bool) (params : Params) :
    (new tr enableMaps params).params = params := by
  cases enableMaps <;> rfl

/-- After construction the toggle of every row of `toggle_defs` whose
`<param>Lock` flag is set is disabled. -/
theorem TogglesPanel.new_locked_disabled (tr : String → String) (enableMaps : Bool)
    (params : Params) (P : String) (hP : P ∈ (toggle_defs tr enableMaps).map Prod.fst)
    (hl : params.getBool (P ++ "Lock") = true) :
    ((new tr enableMaps params).toggles P).enabled = false := by
  cases enableMaps <;>
    simp only [toggle_defs, List.map, List.append_nil, List.cons_append, List.nil_append,
      if_true, if_false, Bool.false_eq_true, List.mem_cons, List.mem_singleton,
      List.not_mem_nil, or_false] at hP <;>
    rcases hP with rfl | rfl | rfl | rfl | rfl | rfl | rfl | rfl | rfl | rfl <;>
    simp [new, toggle_defs, List.foldl, ParamControl.new, ParamControl.setEnabled] <;>
    exact hl

/-- A call of `updateToggles` changes the enabled state of no toggle other than
'EndToEndLong'. -/
theorem TogglesPanel.updateToggles_enabled_other (tr : String → String)
    (decode : String → Except KjException CarParams) (w w' : TogglesPanel) (k : String)
    (h : updateToggles tr decode w = .ok w') (hk : k ≠ "EndToEndLong") :
    (w'.toggles k).enabled = (w.toggles k).enabled := by
  by_cases he : w.params.get "CarParamsPersistent" = ""
  · rw [updateToggles_empty_eq tr decode w he] at h
    cases h
    by_cases hk' : k = "ExperimentalLongitudinalEnabled"
    · simp [onToggle, hk', ParamControl.setVisible]
    · simp [onToggle, hk, hk']
  · cases hd : decode (w.params.get "CarParamsPersistent") with
    | error e =>
      rw [updateToggles_raise tr decode w e he hd] at h
      cases h
    | ok CP =>
      rw [updateToggles_decoded_eq tr decode w CP he hd] at h
      cases h
      by_cases hk' : k = "ExperimentalLongitudinalEnabled"
      · rw [hk', updateWithCarParams_op_long]
        rfl
      · rw [updateWithCarParams_other tr CP w k hk hk']

/-- Locked toggles other than 'EndToEndLong': the toggle of a row of
`toggle_defs` whose `<param>Lock` flag is set is disabled after construction
and still disabled after a later call of `updateToggles`. -/
theorem locked_toggle_other_than_e2e_stays_disabled (tr : String → String)
    (enableMaps : Bool) (decode : String → Except KjException CarParams) (params : Params)
    (P : String) (hP : P ∈ (TogglesPanel.toggle_defs tr enableMaps).map Prod.fst)
    (hl : params.getBool (P ++ "Lock") = true) (hne : P ≠ "EndToEndLong")
    (w' : TogglesPanel)
    (h : TogglesPanel.updateToggles tr decode (TogglesPanel.new tr enableMaps params) = .ok w') :
    ((TogglesPanel.new tr enableMaps params).toggles P).enabled = false
    ∧ (w'.toggles P).enabled = false := by
  have h₀ := TogglesPanel.new_locked_disabled tr enableMaps params P hP hl
  exact ⟨h₀, (TogglesPanel.updateToggles_enabled_other tr decode _ w' P h hne).trans h₀⟩

/-- C14 (the code at the failing input): a locked 'EndToEndLong' toggle does
not stay disabled. With 'EndToEndLongLock' = "1" and a non-empty
'CarParamsPersistent' whose record has `openpilotLongitudinalControl` set and
`experimentalLongitudinalAvailable` clear, the toggle is disabled after
construction, and `updateToggles` enables it. -/
theorem locked_e2e_toggle_enabled_by_update :
    (TogglesPanel.new id false
        ((Params.empty.put "CarParamsPersistent" "x").put "EndToEndLongLock" "1")).params.getBool
          "EndToEndLongLock" = true
    ∧ ((TogglesPanel.new id false
        ((Params.empty.put "CarParamsPersistent" "x").put "EndToEndLongLock" "1")).toggles
          "EndToEndLong").enabled = false
    ∧ ∃ w', TogglesPanel.updateToggles id (fun _ => .ok ⟨false, true⟩)
        (TogglesPanel.new id false
          ((Params.empty.put "CarParamsPersistent" "x").put "EndToEndLongLock" "1")) = .ok w'
      ∧ (w'.toggles "EndToEndLong").enabled = true :=
  ⟨by decide, by decide, _, rfl, by decide⟩

/-! ## C15: `updateToggles` is idempotent -/

theorem Params.getBool_remove_other (p : Params) (k k' : String) (h : k' ≠ k) :
    (p.remove k).getBool k' = p.getBool k' := by
  simp [Params.getBool, Params.get, Params.remove, h]

theorem Params.get_remove_other (p : Params) (k k' : String) (h : k' ≠ k) :
    (p.remove k).get k' = p.get k' := by
  simp [Params.get, Params.remove, h]

/-- The decoded branch of `updateToggles` does not touch the key
'CarParamsPersistent'. -/
theorem TogglesPanel.updateWithCarParams_get_record (tr : String → String) (CP : CarParams)
    (w : TogglesPanel) :
    (updateWithCarParams tr CP w).params.get "CarParamsPersistent" =
      w.params.get "CarParamsPersistent" := by
  rw [updateWithCarParams_params]
  split <;> split <;>
    simp [Params.get_remove_other]

/-- The value read for 'ExperimentalLongitudinalEnabled' after the decoded
branch, when the capability is available. -/
theorem TogglesPanel.updateWithCarParams_getBool_enabled (tr : String → String)
    (b : Bool) (w : TogglesPanel) :
    (updateWithCarParams tr ⟨true, b⟩ w).params.getBool "ExperimentalLongitudinalEnabled" =
      w.params.getBool "ExperimentalLongitudinalEnabled" := by
  rw [updateWithCarParams_params]
  split <;> simp [Params.getBool_remove_other]

/-- Running the decoded branch of `updateToggles` on its own result changes
nothing. -/
theorem TogglesPanel.updateWithCarParams_fixed (tr : String → String) (CP : CarParams)
    (w : TogglesPanel) :
    (updateWithCarParams tr CP (updateWithCarParams tr CP w)).params =
      (updateWithCarParams tr CP w).params
    ∧ ∀ k, (updateWithCarParams tr CP (updateWithCarParams tr CP w)).toggles k =
      (updateWithCarParams tr CP w).toggles k := by
  have hp : (updateWithCarParams tr CP (updateWithCarParams tr CP w)).params =
      (updateWithCarParams tr CP w).params := by
    rw [updateWithCarParams_params tr CP (updateWithCarParams tr CP w)]
    rcases CP with ⟨a, b⟩
    cases a
    · rw [updateWithCarParams_params]
      cases b <;> funext k <;>
        by_cases h₁ : k = "ExperimentalLongitudinalEnabled" <;>
        by_cases h₂ : k = "EndToEndLong" <;>
        simp [Params.remove, h₁, h₂]
    · rw [updateWithCarParams_getBool_enabled, updateWithCarParams_params]
      cases b <;> cases hb : w.params.getBool "ExperimentalLongitudinalEnabled" <;>
        funext k <;> by_cases h₂ : k = "EndToEndLong" <;>
        simp [Params.remove, h₂]
  refine ⟨hp, ?_⟩
  intro k
  by_cases h₁ : k = "EndToEndLong"
  · rw [h₁, updateWithCarParams_e2e tr CP (updateWithCarParams tr CP w), hp]
    rcases CP with ⟨a, b⟩
    cases a
    · rw [updateWithCarParams_e2e]
      cases b <;>
        simp [ParamControl.refresh, ParamControl.setDescription, ParamControl.setEnabled]
    · rw [updateWithCarParams_getBool_enabled, updateWithCarParams_e2e]
      cases b <;> cases hb : w.params.getBool "ExperimentalLongitudinalEnabled" <;>
        simp [ParamControl.refresh, ParamControl.setDescription, ParamControl.setEnabled]
  · by_cases h₂ : k = "ExperimentalLongitudinalEnabled"
    · rw [h₂, updateWithCarParams_op_long tr CP (updateWithCarParams tr CP w),
        updateWithCarParams_op_long]
      rfl
    · rw [updateWithCarParams_other tr CP _ k h₁ h₂]

/-- C15: `updateToggles` is idempotent. For every store content and every
toggle state, when a first call returns the panel `w₁`, a second call on `w₁`
returns a panel with the same key-value store and the same state of every
toggle, in particular the same visibility, enabled state and description of
the 'EndToEndLong' and 'ExperimentalLongitudinalEnabled' toggles. The first
call returns whenever 'CarParamsPersistent' is empty or decodes; when the
decoding raises, the first call raises and nothing runs twice. -/
theorem updateToggles_idempotent (tr : String → String)
    (decode : String → Except KjException CarParams) (w : TogglesPanel) :
    (w.params.get "CarParamsPersistent" = "" ∨
        (∃ CP, decode (w.params.get "CarParamsPersistent") = .ok CP) →
      ∃ w₁ w₂, TogglesPanel.updateToggles tr decode w = .ok w₁
        ∧ TogglesPanel.updateToggles tr decode w₁ = .ok w₂
        ∧ w₂.params = w₁.params
        ∧ (∀ k, w₂.toggles k = w₁.toggles k)
        ∧ (w₂.toggles "EndToEndLong").visible = (w₁.toggles "EndToEndLong").visible
        ∧ (w₂.toggles "EndToEndLong").enabled = (w₁.toggles "EndToEndLong").enabled
        ∧ (w₂.toggles "EndToEndLong").description = (w₁.toggles "EndToEndLong").description
        ∧ (w₂.toggles "ExperimentalLongitudinalEnabled").visible =
            (w₁.toggles "ExperimentalLongitudinalEnabled").visible
        ∧ (w₂.toggles "ExperimentalLongitudinalEnabled").enabled =
            (w₁.toggles "ExperimentalLongitudinalEnabled").enabled
        ∧ (w₂.toggles "ExperimentalLongitudinalEnabled").description =
            (w₁.toggles "ExperimentalLongitudinalEnabled").description)
    ∧ (∀ e, w.params.get "CarParamsPersistent" ≠ "" →
        decode (w.params.get "CarParamsPersistent") = .error e →
        TogglesPanel.updateToggles tr decode w = .error e
        ∧ (TogglesPanel.updateToggles tr decode w).bind (TogglesPanel.updateToggles tr decode)
            = .error e) := by
  constructor
  · intro h
    have key : ∃ w₁ w₂, TogglesPanel.updateToggles tr decode w = .ok w₁
        ∧ TogglesPanel.updateToggles tr decode w₁ = .ok w₂
        ∧ w₂.params = w₁.params ∧ (∀ k, w₂.toggles k = w₁.toggles k) := by
      by_cases he : w.params.get "CarParamsPersistent" = ""
      · refine ⟨_, _, TogglesPanel.updateToggles_empty_eq tr decode w he,
          TogglesPanel.updateToggles_empty_eq tr decode _ he, rfl, ?_⟩
        intro k
        by_cases h₁ : k = "EndToEndLong" <;>
          by_cases h₂ : k = "ExperimentalLongitudinalEnabled" <;>
          simp [TogglesPanel.onToggle, h₁, h₂, ParamControl.setDescription,
            ParamControl.setVisible]
      · rcases h with h | ⟨CP, hd⟩
        · exact absurd h he
        · have he' : (TogglesPanel.updateWithCarParams tr CP w).params.get
              "CarParamsPersistent" ≠ "" := by
            rw [TogglesPanel.updateWithCarParams_get_record]; exact he
          have hd' : decode ((TogglesPanel.updateWithCarParams tr CP w).params.get
              "CarParamsPersistent") = .ok CP := by
            rw [TogglesPanel.updateWithCarParams_get_record]; exact hd
          exact ⟨_, _, TogglesPanel.updateToggles_decoded_eq tr decode w CP he hd,
            TogglesPanel.updateToggles_decoded_eq tr decode _ CP he' hd',
            (TogglesPanel.updateWithCarParams_fixed tr CP w).1,
            (TogglesPanel.updateWithCarParams_fixed tr CP w).2⟩
    obtain ⟨w₁, w₂, h₁, h₂, hp, ht⟩ := key
    exact ⟨w₁, w₂, h₁, h₂, hp, ht, by rw [ht], by rw [ht], by rw [ht], by rw [ht], by rw [ht],
      by rw [ht]⟩
  · intro e he hd
    have := TogglesPanel.updateToggles_raise tr decode w e he hd
    exact ⟨this, by rw [this]; rfl⟩

/-- C15, at a panel whose record offers experimental longitudinal control and
whose store holds 'EndToEndLong' = "1": the second call changes neither the
store nor a toggle. -/
theorem updateToggles_idempotent_witness :
    ∃ w₁ w₂, TogglesPanel.updateToggles id (fun _ => .ok ⟨true, false⟩)
        (TogglesPanel.new id false
          ((Params.empty.put "CarParamsPersistent" "x").put "EndToEndLong" "1")) = .ok w₁
      ∧ TogglesPanel.updateToggles id (fun _ => .ok ⟨true, false⟩) w₁ = .ok w₂
      ∧ w₂.params = w₁.params ∧ (∀ k, w₂.toggles k = w₁.toggles k) := by
  obtain ⟨w₁, w₂, h₁, h₂, hp, ht, _⟩ := (updateToggles_idempotent id
    (fun _ => .ok ⟨true, false⟩)
    (TogglesPanel.new id false
      ((Params.empty.put "CarParamsPersistent" "x").put "EndToEndLong" "1"))).1
    (Or.inr ⟨⟨true, false⟩, rfl⟩)
  exact ⟨w₁, w₂, h₁, h₂, hp, ht⟩

end Settings
